import Mathlib

/-!
# DCGM collector: conversion of raw field values into metric records

Shallow embedding of `pkg/gpu_collector.go` (package `main` of the DCGM exporter): the
converter `ToString` and `ToMetric`, the collection pass `GetMetrics`, and the construction
and teardown of the collector, `NewDCGMCollector` and `Cleanup`.

Conventions of the embedding.

* Go `uint` values (GPU index, GPU count, entity ids) are natural numbers. The only
  arithmetic the source performs on them is counting slice elements and stepping loop
  indices, which stays far below `2 ^ 64` for any topology that fits in memory.
* A run-time panic (index out of range) is an explicit outcome: `none` for `ToMetric`,
  `Outcome.panic` for `GetMetrics`.
* A Go slice is a `List`; the nil slice and the empty slice are both `[]`.
* The DCGM daemon is an explicit world state threaded through every call.
-/

namespace DcgmExporter

/-! ## Declarations the collector imports -/

/-- Modelled from the spec: the "skip" marker string of the package (declared next to the
`Metric` type, outside `gpu_collector.go`). -/
def SkipDCGMValue : String := "SKIPPING DCGM VALUE"

/-- Modelled from the spec: the distinct "conversion failed" marker string of the package
(declared next to `SkipDCGMValue`, outside `gpu_collector.go`). -/
def FailedToConvert : String := "ERROR - FAILED TO CONVERT TO STRING"

/-- Modelled from the spec: field type tag "binary" of the DCGM bindings, the character `b`. -/
def DCGM_FT_BINARY : Nat := 98
/-- Modelled from the spec: field type tag "double" of the DCGM bindings, the character `d`. -/
def DCGM_FT_DOUBLE : Nat := 100
/-- Modelled from the spec: field type tag "int64" of the DCGM bindings, the character `i`. -/
def DCGM_FT_INT64 : Nat := 105
/-- Modelled from the spec: field type tag "string" of the DCGM bindings, the character `s`. -/
def DCGM_FT_STRING : Nat := 115
/-- Modelled from the spec: field type tag "timestamp" of the DCGM bindings, the character `t`. -/
def DCGM_FT_TIMESTAMP : Nat := 116

/-- Modelled from the spec: blank sentinel of a 32-bit integer field, `0x7ffffff0`. -/
def DCGM_FT_INT32_BLANK : Int := 2147483632
/-- Modelled from the spec: not-found sentinel of a 32-bit integer field. -/
def DCGM_FT_INT32_NOT_FOUND : Int := DCGM_FT_INT32_BLANK + 1
/-- Modelled from the spec: not-supported sentinel of a 32-bit integer field. -/
def DCGM_FT_INT32_NOT_SUPPORTED : Int := DCGM_FT_INT32_BLANK + 2
/-- Modelled from the spec: not-permissioned sentinel of a 32-bit integer field. -/
def DCGM_FT_INT32_NOT_PERMISSIONED : Int := DCGM_FT_INT32_BLANK + 3
/-- Modelled from the spec: blank sentinel of a 64-bit integer field, `0x7ffffffffffffff0`. -/
def DCGM_FT_INT64_BLANK : Int := 9223372036854775792
/-- Modelled from the spec: not-found sentinel of a 64-bit integer field. -/
def DCGM_FT_INT64_NOT_FOUND : Int := DCGM_FT_INT64_BLANK + 1
/-- Modelled from the spec: not-supported sentinel of a 64-bit integer field. -/
def DCGM_FT_INT64_NOT_SUPPORTED : Int := DCGM_FT_INT64_BLANK + 2
/-- Modelled from the spec: not-permissioned sentinel of a 64-bit integer field. -/
def DCGM_FT_INT64_NOT_PERMISSIONED : Int := DCGM_FT_INT64_BLANK + 3

/-- An IEEE 754 binary64 datum. A finite datum is kept exactly, as a sign, a significand
`mant` and a binary exponent `exp`, and stands for `mant * 2 ^ exp`; no rounding is
involved anywhere in the model. A datum is in canonical form when it is zero or subnormal
(`mant < 2 ^ 52`, `exp = -1074`) or normal (`2 ^ 52 ≤ mant < 2 ^ 53`), which is the form
every decoded word has. -/
inductive Float64 where
  | nan
  | inf (neg : Bool)
  | fin (neg : Bool) (mant : Nat) (exp : Int)
deriving DecidableEq, Repr

/-- Decoding of a 64-bit word as a binary64: sign bit 63, biased exponent bits 62..52,
fraction bits 51..0. -/
def Float64.ofBits (w : Nat) : Float64 :=
  let neg := decide (w / 2 ^ 63 % 2 = 1)
  let e : Nat := w / 2 ^ 52 % 2 ^ 11
  let m : Nat := w % 2 ^ 52
  if e = 2047 then (if m = 0 then Float64.inf neg else Float64.nan)
  else if e = 0 then Float64.fin neg m (-1074)
  else Float64.fin neg (2 ^ 52 + m) ((e : Int) - 1075)

/-- Go `==` on float64 operands in canonical form: NaN equals nothing, the two zeros are
equal, otherwise sign, significand and exponent must agree. -/
def Float64.eq : Float64 → Float64 → Bool
  | Float64.nan, _ => false
  | _, Float64.nan => false
  | Float64.inf a, Float64.inf b => a == b
  | Float64.fin a x e, Float64.fin b y f =>
    (x == 0 && y == 0) || (a == b && x == y && e == f)
  | _, _ => false

/-- Modelled from the spec: blank sentinel of a double field, `140737488355328.0`, which
is `2 ^ 47`; in canonical form the significand is scaled by `32` and the exponent is `-5`. -/
def DCGM_FT_FP64_BLANK : Float64 := Float64.fin false (140737488355328 * 32) (-5)
/-- Modelled from the spec: not-found sentinel of a double field, blank plus `1.0`. -/
def DCGM_FT_FP64_NOT_FOUND : Float64 := Float64.fin false (140737488355329 * 32) (-5)
/-- Modelled from the spec: not-supported sentinel of a double field, blank plus `2.0`. -/
def DCGM_FT_FP64_NOT_SUPPORTED : Float64 := Float64.fin false (140737488355330 * 32) (-5)
/-- Modelled from the spec: not-permissioned sentinel of a double field, blank plus `3.0`. -/
def DCGM_FT_FP64_NOT_PERMISSIONED : Float64 := Float64.fin false (140737488355331 * 32) (-5)

/-- Modelled from the spec: one raw value returned by the daemon (`dcgm.FieldValue_v1`).
`FieldType` is the declared type tag, `Value` the leading 8 bytes of the value buffer read
as a machine word (taken modulo `2 ^ 64`), `Str` the text the buffer holds. -/
structure FieldValue_v1 where
  FieldType : Nat
  Value : Nat
  Str : String
deriving DecidableEq, Repr, Inhabited

/-- Modelled from the spec: the value inspected as a 64-bit signed integer (two's
complement reading of the word). -/
def FieldValue_v1.Int64 (fv : FieldValue_v1) : Int :=
  let w : Nat := fv.Value % 2 ^ 64
  if w < 2 ^ 63 then (w : Int) else (w : Int) - 2 ^ 64

/-- Modelled from the spec: the value inspected as a double (binary64 reading of the same
word). -/
def FieldValue_v1.Float64 (fv : FieldValue_v1) : Float64 :=
  Float64.ofBits (fv.Value % 2 ^ 64)

/-- Modelled from the spec: the value inspected as a string. -/
def FieldValue_v1.String (fv : FieldValue_v1) : String := fv.Str

/-! ## Text formatting of the Go standard library -/

/-- Result of `fmt.Sprintf("%d", n)` for an unsigned operand: decimal digits. -/
def Sprintf_d_uint (n : Nat) : String := Nat.repr n

/-- Result of `fmt.Sprintf("%d", i)` for a signed operand: a minus sign for a negative
operand, then the decimal digits of the magnitude. -/
def Sprintf_d_int64 (i : Int) : String :=
  if i < 0 then "-" ++ Nat.repr i.natAbs else Nat.repr i.natAbs

/-- Six decimal digits of `k` (for `k < 10 ^ 6`), leading zeros kept. -/
def sixDigits (k : Nat) : String :=
  String.mk ([5, 4, 3, 2, 1, 0].map (fun i => Nat.digitChar (k / 10 ^ i % 10)))

/-- Result of `fmt.Sprintf("%f", x)`: fixed-point text with six fractional digits, the
exact value rounded to nearest with ties to even; `NaN`, `+Inf` and `-Inf` for the
non-finite data. The magnitude times `10 ^ 6` is the fraction `num / den`. -/
def Sprintf_f : Float64 → String
  | Float64.nan => "NaN"
  | Float64.inf false => "+Inf"
  | Float64.inf true => "-Inf"
  | Float64.fin neg mant exp =>
    let num := if 0 ≤ exp then mant * 2 ^ exp.toNat * 10 ^ 6 else mant * 10 ^ 6
    let den := if 0 ≤ exp then 1 else 2 ^ (-exp).toNat
    let q := num / den
    let r := num % den
    let n := if den < 2 * r ∨ (2 * r = den ∧ q % 2 = 1) then q + 1 else q
    (if neg then "-" else "") ++ Nat.repr (n / 10 ^ 6) ++ "." ++ sixDigits (n % 10 ^ 6)

/-! ## Data model of the package -/

/-- Modelled from the spec: a configured counter, a field identifier with its display name. -/
structure Counter where
  FieldID : Nat
  FieldName : String
deriving DecidableEq, Repr, Inhabited

/-- Modelled from the spec: device identity of a physical GPU (`dcgm.Device`), its index
and UUID. -/
structure Device where
  GPU : Nat
  UUID : String
deriving DecidableEq, Repr, Inhabited

/-- Modelled from the spec: MIG entity record of the bindings; the collector reads its
numeric instance id only. -/
structure MigEntityInfo where
  NvmlInstanceId : Nat
deriving DecidableEq, Repr, Inhabited

/-- Modelled from the spec: identity of one MIG partition. -/
structure GpuInstanceInfo where
  Info : MigEntityInfo
  ProfileName : String
  EntityId : Nat
deriving DecidableEq, Repr, Inhabited

/-- Modelled from the spec: one GPU of the topology, its device identity and its ordered
list of instances. -/
structure GpuInfo where
  DeviceInfo : Device
  GpuInstances : List GpuInstanceInfo
deriving DecidableEq, Repr, Inhabited

/-- Modelled from the spec: topology snapshot. -/
structure SystemInfo where
  GpuCount : Nat
  Gpus : List GpuInfo
  MigEnabled : Bool
deriving DecidableEq, Repr, Inhabited

/-- Modelled from the spec: the output record. A field the source leaves unset holds the
empty string; `Attributes` is the (string to string) map, kept as an association list. -/
structure Metric where
  Name : String
  Value : String
  UUID : String
  GPU : String
  GPUUUID : String
  GPUDevice : String
  MigProfile : String
  GPUInstanceID : String
  Attributes : List (String × String)
deriving DecidableEq, Repr, Inhabited

/-! ## The converter -/

/-- Source `ToString`: the three `switch` statements in order. A Go `switch` on a tag
takes the first case equal to the tag, so each is a chain of comparisons. -/
def ToString (value : FieldValue_v1) : String :=
  let v := value.Int64
  if v = DCGM_FT_INT32_BLANK then SkipDCGMValue
  else if v = DCGM_FT_INT32_NOT_FOUND then SkipDCGMValue
  else if v = DCGM_FT_INT32_NOT_SUPPORTED then SkipDCGMValue
  else if v = DCGM_FT_INT32_NOT_PERMISSIONED then SkipDCGMValue
  else if v = DCGM_FT_INT64_BLANK then SkipDCGMValue
  else if v = DCGM_FT_INT64_NOT_FOUND then SkipDCGMValue
  else if v = DCGM_FT_INT64_NOT_SUPPORTED then SkipDCGMValue
  else if v = DCGM_FT_INT64_NOT_PERMISSIONED then SkipDCGMValue
  else
    let f := value.Float64
    if f.eq DCGM_FT_FP64_BLANK then SkipDCGMValue
    else if f.eq DCGM_FT_FP64_NOT_FOUND then SkipDCGMValue
    else if f.eq DCGM_FT_FP64_NOT_SUPPORTED then SkipDCGMValue
    else if f.eq DCGM_FT_FP64_NOT_PERMISSIONED then SkipDCGMValue
    else
      let t := value.FieldType
      if t = DCGM_FT_STRING then value.String
      else if t = DCGM_FT_DOUBLE then Sprintf_f value.Float64
      else if t = DCGM_FT_INT64 then Sprintf_d_int64 value.Int64
      else FailedToConvert

/-- Body of the `for i, val := range values` loop of `ToMetric`, from index `i` on, with
`metrics` the slice built so far. Indexing `c[i]` past the end of `c` panics (`none`);
the index expression is reached only for a value that is not skipped. -/
def ToMetric.loop (c : List Counter) (d : Device) (instanceInfo : Option GpuInstanceInfo)
    (useOld : Bool) : Nat → List FieldValue_v1 → List Metric → Option (List Metric)
  | _, [], metrics => some metrics
  | i, val :: rest, metrics =>
    let v := ToString val
    if v = SkipDCGMValue then ToMetric.loop c d instanceInfo useOld (i + 1) rest metrics
    else
      let uuid := if useOld then "uuid" else "UUID"
      match c.get? i with
      | none => none
      | some ci =>
        let m : Metric :=
          { Name := ci.FieldName
            Value := v
            UUID := uuid
            GPU := Sprintf_d_uint d.GPU
            GPUUUID := d.UUID
            GPUDevice := "nvidia" ++ Sprintf_d_uint d.GPU
            MigProfile := ""
            GPUInstanceID := ""
            Attributes := [] }
        let m : Metric :=
          match instanceInfo with
          | none => m
          | some info =>
            { m with MigProfile := info.ProfileName
                     GPUInstanceID := Sprintf_d_uint info.Info.NvmlInstanceId }
        ToMetric.loop c d instanceInfo useOld (i + 1) rest (metrics ++ [m])

/-- Source `ToMetric`: the loop run over all of `values`, starting from the nil slice. -/
def ToMetric (values : List FieldValue_v1) (c : List Counter) (d : Device)
    (instanceInfo : Option GpuInstanceInfo) (useOld : Bool) : Option (List Metric) :=
  ToMetric.loop c d instanceInfo useOld 0 values []

/-- The record the loop body of `ToMetric` builds for counter `ci` and value text `v`
(the composite literal followed by the `instanceInfo != nil` update). -/
def buildMetric (ci : Counter) (v : String) (d : Device) (instanceInfo : Option GpuInstanceInfo)
    (useOld : Bool) : Metric :=
  { Name := ci.FieldName
    Value := v
    UUID := if useOld then "uuid" else "UUID"
    GPU := Sprintf_d_uint d.GPU
    GPUUUID := d.UUID
    GPUDevice := "nvidia" ++ Sprintf_d_uint d.GPU
    MigProfile := match instanceInfo with
      | none => ""
      | some info => info.ProfileName
    GPUInstanceID := match instanceInfo with
      | none => ""
      | some info => Sprintf_d_uint info.Info.NvmlInstanceId
    Attributes := [] }

/-- The values the loop of `ToMetric` does not skip, each with its index, from index `i`
on: the pairs `(j, values[j])` with `ToString values[j]` different from the skip marker. -/
def kept (i : Nat) (values : List FieldValue_v1) : List (Nat × FieldValue_v1) :=
  (values.enumFrom i).filter (fun p => decide (ToString p.2 ≠ SkipDCGMValue))

/-! ## The daemon -/

/-- Modelled from the spec: a Go `error` value handed back by the daemon. -/
structure Error where
  msg : String
deriving DecidableEq, Repr, Inhabited

/-- Modelled from the spec: entity groups of the DCGM bindings; the collector names
`FE_GPU_I` (a GPU instance) only. -/
inductive Field_Entity_Group where
  | FE_NONE
  | FE_GPU
  | FE_VGPU
  | FE_SWITCH
  | FE_GPU_I
  | FE_GPU_CI
deriving DecidableEq, Repr

/-- Answer of the daemon to a latest-values call: the Go pair `(vals, err)` with exactly
one side set. -/
inductive Fetched where
  | err (e : Error)
  | vals (values : List FieldValue_v1)
deriving DecidableEq, Repr

/-- Modelled from the spec: the latest-values interface of the daemon. Each call takes the
current world, answers, and leaves a new world. -/
structure Daemon (World : Type) where
  GetLatestValuesForFields : World → Nat → List Nat → Fetched × World
  EntityGetLatestValues : World → Field_Entity_Group → Nat → List Nat → Fetched × World

/-! ## The collector -/

/-- Modelled from the spec: the collector. `Func` is the type of the Go `func()` values
kept as cleanup handles. -/
structure DCGMCollector (Func : Type) where
  Counters : List Counter
  DeviceFields : List Nat
  Cleanups : List Func
  UseOldNamespace : Bool
  SysInfo : SystemInfo

/-- How a call of `GetMetrics` (or of one of its loops) ends: a run-time panic, the Go
return `nil, err`, or the Go return `val, nil`. -/
inductive Outcome (α : Type) where
  | panic
  | error (err : Error)
  | ok (val : α)
deriving DecidableEq, Repr

/-- Go assignment `metrics[i] = x`: panics when `i` is not an index of `metrics`. -/
def setSlot (metrics : List (List Metric)) (i : Nat) (x : List Metric) :
    Option (List (List Metric)) :=
  if i < metrics.length then some (metrics.set i x) else none

/-- The counting loop of `GetMetrics`,
`for i := 0; i < GpuCount; i++ { count += len(Gpus[i].GpuInstances) }`, with `todo`
iterations left, the index at `i` and the running total at `count`. Indexing `Gpus[i]`
past its end panics (`none`). -/
def GetMetrics.countLoop (sys : SystemInfo) : Nat → Nat → Nat → Option Nat
  | 0, _, count => some count
  | todo + 1, i, count =>
    match sys.Gpus.get? i with
    | none => none
    | some gpu => GetMetrics.countLoop sys todo (i + 1) (count + gpu.GpuInstances.length)

/-- The inner loop of `GetMetrics`, `for _, instance := range Gpus[i].GpuInstances`, over
the instances still to visit. It carries the slots `metrics`, the cursor `gpuIIndex` and
the world, and returns the first two when it runs to its end. -/
def GetMetrics.instanceLoop {World Func : Type} (dcgm : Daemon World)
    (c : DCGMCollector Func) (deviceInfo : Device) :
    List GpuInstanceInfo → List (List Metric) → Nat → World →
      Outcome (List (List Metric) × Nat) × World
  | [], metrics, gpuIIndex, w => (Outcome.ok (metrics, gpuIIndex), w)
  | inst :: rest, metrics, gpuIIndex, w =>
    match dcgm.EntityGetLatestValues w Field_Entity_Group.FE_GPU_I inst.EntityId
        c.DeviceFields with
    | (Fetched.err err, w1) => (Outcome.error err, w1)
    | (Fetched.vals vals, w1) =>
      match ToMetric vals c.Counters deviceInfo (some inst) c.UseOldNamespace with
      | none => (Outcome.panic, w1)
      | some ms =>
        match setSlot metrics gpuIIndex ms with
        | none => (Outcome.panic, w1)
        | some metrics1 =>
          GetMetrics.instanceLoop dcgm c deviceInfo rest metrics1 (gpuIIndex + 1) w1

/-- The main loop of `GetMetrics`, `for i := 0; i < count; i++`, with `todo` iterations
left and the index at `i`. Indexing `Gpus[i]` past its end panics. -/
def GetMetrics.mainLoop {World Func : Type} (dcgm : Daemon World) (c : DCGMCollector Func) :
    Nat → Nat → List (List Metric) → Nat → World → Outcome (List (List Metric)) × World
  | 0, _, metrics, _, w => (Outcome.ok metrics, w)
  | todo + 1, i, metrics, gpuIIndex, w =>
    match c.SysInfo.Gpus.get? i with
    | none => (Outcome.panic, w)
    | some gpu =>
      let deviceInfo := gpu.DeviceInfo
      if c.SysInfo.MigEnabled = false then
        match dcgm.GetLatestValuesForFields w i c.DeviceFields with
        | (Fetched.err err, w1) => (Outcome.error err, w1)
        | (Fetched.vals vals, w1) =>
          match ToMetric vals c.Counters deviceInfo none c.UseOldNamespace with
          | none => (Outcome.panic, w1)
          | some ms =>
            match setSlot metrics i ms with
            | none => (Outcome.panic, w1)
            | some metrics1 => GetMetrics.mainLoop dcgm c todo (i + 1) metrics1 gpuIIndex w1
      else
        match GetMetrics.instanceLoop dcgm c deviceInfo gpu.GpuInstances metrics gpuIIndex w
          with
        | (Outcome.panic, w1) => (Outcome.panic, w1)
        | (Outcome.error err, w1) => (Outcome.error err, w1)
        | (Outcome.ok (metrics1, gpuIIndex1), w1) =>
          GetMetrics.mainLoop dcgm c todo (i + 1) metrics1 gpuIIndex1 w1

/-- Source `GetMetrics`: the entity count, `make([][]Metric, count)` (every slot nil),
then the main loop from index 0 with the cursor `gpuIIndex` at 0. -/
def GetMetrics {World Func : Type} (dcgm : Daemon World) (c : DCGMCollector Func)
    (w : World) : Outcome (List (List Metric)) × World :=
  let counted : Option Nat :=
    if c.SysInfo.MigEnabled = true then
      GetMetrics.countLoop c.SysInfo c.SysInfo.GpuCount 0 0
    else some c.SysInfo.GpuCount
  match counted with
  | none => (Outcome.panic, w)
  | some count => GetMetrics.mainLoop dcgm c count 0 (List.replicate count []) 0 w

/-! ## Calls to the daemon (specification side) -/

/-- A latest-values request as the daemon receives it. -/
inductive Request where
  | gpu (gpuId : Nat) (fields : List Nat)
  | entity (group : Field_Entity_Group) (entityId : Nat) (fields : List Nat)
deriving DecidableEq, Repr

/-- The daemon serving one request on world `w`. -/
def Daemon.serve {World : Type} (dcgm : Daemon World) (w : World) : Request → Fetched × World
  | Request.gpu gpuId fields => dcgm.GetLatestValuesForFields w gpuId fields
  | Request.entity group entityId fields => dcgm.EntityGetLatestValues w group entityId fields

/-- Answers of the daemon to requests issued one after another, each on the world the
previous one left. -/
def Daemon.answers {World : Type} (dcgm : Daemon World) : List Request → World → List Fetched
  | [], _ => []
  | r :: rs, w => (dcgm.serve w r).1 :: Daemon.answers dcgm rs (dcgm.serve w r).2

/-- World left by the daemon after requests issued one after another. -/
def Daemon.worldAfter {World : Type} (dcgm : Daemon World) : List Request → World → World
  | [], w => w
  | r :: rs, w => Daemon.worldAfter dcgm rs (dcgm.serve w r).2

/-- One call to the daemon, the request with the answer it got. -/
structure Call where
  request : Request
  answer : Fetched
deriving DecidableEq, Repr

/-- The same daemon with a journal: the world is paired with the list of calls served so
far, oldest first; answers and the underlying world are those of `dcgm`. -/
def Daemon.recording {World : Type} (dcgm : Daemon World) : Daemon (World × List Call) where
  GetLatestValuesForFields := fun s gpuId fields =>
    ((dcgm.GetLatestValuesForFields s.1 gpuId fields).1,
      ((dcgm.GetLatestValuesForFields s.1 gpuId fields).2,
        s.2 ++ [⟨Request.gpu gpuId fields,
          (dcgm.GetLatestValuesForFields s.1 gpuId fields).1⟩]))
  EntityGetLatestValues := fun s group entityId fields =>
    ((dcgm.EntityGetLatestValues s.1 group entityId fields).1,
      ((dcgm.EntityGetLatestValues s.1 group entityId fields).2,
        s.2 ++ [⟨Request.entity group entityId fields,
          (dcgm.EntityGetLatestValues s.1 group entityId fields).1⟩]))

/-- Every call of the journal got values. -/
def allSucceeded (log : List Call) : Prop :=
  ∀ call ∈ log, ∃ vals, call.answer = Fetched.vals vals

/-- The requests of a pass in enumeration order: without MIG the GPUs `0 .. GpuCount - 1`
by index, with MIG the instances of the GPU list, GPU after GPU, each GPU's instances in
declared order, by entity id. -/
def enumeration {Func : Type} (c : DCGMCollector Func) : List Request :=
  if c.SysInfo.MigEnabled = false then
    (List.range c.SysInfo.GpuCount).map (fun i => Request.gpu i c.DeviceFields)
  else
    (c.SysInfo.Gpus.flatMap (fun gpu => gpu.GpuInstances)).map
      (fun inst => Request.entity Field_Entity_Group.FE_GPU_I inst.EntityId c.DeviceFields)

/-- Shape of the journal of a pass that ended with outcome `o`: if `o` is an error, the
journal ends with the call that failed with that error and every earlier call got values;
otherwise every call got values. -/
def journalShape {α : Type} (o : Outcome α) (log : List Call) : Prop :=
  match o with
  | Outcome.error e => ∃ pre req, log = pre ++ [⟨req, Fetched.err e⟩] ∧ allSucceeded pre
  | _ => allSucceeded log

/-- The requests the main loop is about to make when it has `todo` iterations left from
index `i` on and nothing stops it. -/
def loopRequests {Func : Type} (c : DCGMCollector Func) (i todo : Nat) : List Request :=
  if c.SysInfo.MigEnabled = false then
    (List.range' i todo).map (fun j => Request.gpu j c.DeviceFields)
  else
    (((c.SysInfo.Gpus.drop i).take todo).flatMap (fun gpu => gpu.GpuInstances)).map
      (fun inst => Request.entity Field_Entity_Group.FE_GPU_I inst.EntityId c.DeviceFields)

/-! ## Sample topologies -/

/-- A daemon whose world counts the calls served. It answers one int64 value per requested
field and refuses the entity (GPU or instance) whose id is `bad`. -/
def sampleDaemon (bad : Nat) : Daemon Nat where
  GetLatestValuesForFields := fun w gpuId fields =>
    (if gpuId = bad then Fetched.err ⟨"GPU is lost"⟩
      else Fetched.vals (fields.map (fun f => ⟨DCGM_FT_INT64, 1000 * gpuId + f, ""⟩)), w + 1)
  EntityGetLatestValues := fun w _ entityId fields =>
    (if entityId = bad then Fetched.err ⟨"entity is lost"⟩
      else Fetched.vals (fields.map (fun f => ⟨DCGM_FT_INT64, 1000 * entityId + f, ""⟩)),
      w + 1)

/-- A GPU of the sample topologies: index `i` and instances with the given entity ids. -/
def sampleGpu (i : Nat) (entityIds : List Nat) : GpuInfo :=
  { DeviceInfo := ⟨i, "GPU-" ++ Sprintf_d_uint i⟩
    GpuInstances := entityIds.map (fun e => ⟨⟨e % 8⟩, "1g.5gb", e⟩) }

/-- A collector with three counters over the given topology. -/
def sampleCollector (mig : Bool) (gpuCount : Nat) (gpus : List GpuInfo) : DCGMCollector Unit :=
  { Counters := [⟨150, "DCGM_FI_DEV_GPU_TEMP"⟩, ⟨155, "DCGM_FI_DEV_POWER_USAGE"⟩,
      ⟨203, "DCGM_FI_DEV_GPU_UTIL"⟩]
    DeviceFields := [150, 155, 203]
    Cleanups := []
    UseOldNamespace := false
    SysInfo := ⟨gpuCount, gpus, mig⟩ }

/-! ## The sentinel table (specification side) -/

/-- The integer codes `ToString` compares the `Int64()` reading with, in source order. -/
def integerSentinels : List Int :=
  [DCGM_FT_INT32_BLANK, DCGM_FT_INT32_NOT_FOUND, DCGM_FT_INT32_NOT_SUPPORTED,
    DCGM_FT_INT32_NOT_PERMISSIONED, DCGM_FT_INT64_BLANK, DCGM_FT_INT64_NOT_FOUND,
    DCGM_FT_INT64_NOT_SUPPORTED, DCGM_FT_INT64_NOT_PERMISSIONED]

/-- The double codes `ToString` compares the `Float64()` reading with, in source order. -/
def doubleSentinels : List Float64 :=
  [DCGM_FT_FP64_BLANK, DCGM_FT_FP64_NOT_FOUND, DCGM_FT_FP64_NOT_SUPPORTED,
    DCGM_FT_FP64_NOT_PERMISSIONED]

/-- A value matches a sentinel when its `Int64()` reading is one of the integer codes or
its `Float64()` reading compares equal to one of the double codes. -/
def matchesSentinel (value : FieldValue_v1) : Prop :=
  value.Int64 ∈ integerSentinels ∨ ∃ s ∈ doubleSentinels, value.Float64.eq s = true

instance matchesSentinel.decidable (value : FieldValue_v1) : Decidable (matchesSentinel value) :=
  inferInstanceAs
    (Decidable (value.Int64 ∈ integerSentinels ∨
      ∃ s ∈ doubleSentinels, value.Float64.eq s = true))

/-! ## Reading decimal text back (specification side) -/

/-- Value of a decimal digit character, `none` for any other character. -/
def digitValue (ch : Char) : Option Nat :=
  if 48 ≤ ch.toNat ∧ ch.toNat ≤ 57 then some (ch.toNat - 48) else none

/-- Reading of a run of decimal digits, most significant first, onto the value `acc` read
so far; `none` as soon as a character is not a digit. -/
def parseDigits : List Char → Nat → Option Nat
  | [], acc => some acc
  | ch :: rest, acc =>
    match digitValue ch with
    | none => none
    | some dv => parseDigits rest (acc * 10 + dv)

/-- Reading of an unsigned decimal numeral: at least one digit, nothing but digits. -/
def parseDecimalNat (text : List Char) : Option Nat :=
  if text = [] then none else parseDigits text 0

/-- Reading of a signed decimal numeral: an optional leading minus sign, then an unsigned
numeral. -/
def parseDecimalInt (text : String) : Option Int :=
  if text.data.head? = some '-' then
    match parseDecimalNat text.data.tail with
    | none => none
    | some n => some (-(n : Int))
  else
    match parseDecimalNat text.data with
    | none => none
    | some n => some (n : Int)

/-! ## Monitored entities (specification side) -/

/-- Number of GPU instances over the GPUs with index below `GpuCount`. -/
def instanceTotal (sys : SystemInfo) : Nat :=
  ((sys.Gpus.take sys.GpuCount).map (fun gpu => gpu.GpuInstances.length)).sum

/-- The instances of the given GPUs, GPU after GPU, each GPU's instances in declared
order, every instance paired with the GPU that owns it. -/
def flatInstances (gpus : List GpuInfo) : List (GpuInfo × GpuInstanceInfo) :=
  gpus.flatMap (fun gpu => gpu.GpuInstances.map (fun inst => (gpu, inst)))

/-- The fetch requests for the given instances, in order. -/
def instanceRequests (fields : List Nat) (insts : List (GpuInfo × GpuInstanceInfo)) :
    List Request :=
  insts.map (fun p => Request.entity Field_Entity_Group.FE_GPU_I p.2.EntityId fields)

/-- The MIG topology of the sample pass: GPU 0 with the instances 11 and 12, GPU 1 with
the instance 21, and one unused entry. -/
def sampleMigCollector : DCGMCollector Unit :=
  sampleCollector true 2 [sampleGpu 0 [11, 12], sampleGpu 1 [21], sampleGpu 2 []]

/-! ## Construction and teardown -/

/-- The loop of `Cleanup`, `for _, c := range c.Cleanups { c() }`, over the handles still
to call. A handle is a Go `func()`: calling it transforms the world. -/
def Cleanup.loop {World : Type} : List (World → World) → World → World
  | [], w => w
  | handle :: rest, w => Cleanup.loop rest (handle w)

/-- Source `Cleanup`. -/
def Cleanup {World : Type} (c : DCGMCollector (World → World)) (w : World) : World :=
  Cleanup.loop c.Cleanups w

/-- The functions of the package that `NewDCGMCollector` calls and that are declared
outside `gpu_collector.go`, taken as parameters: topology discovery, the derivation of the
field list from the counters, and the registration of the field watch, which hands back
the cleanup handles. Discovery and registration act on the world and may fail. -/
structure Bindings (World : Type) where
  InitializeSystemInfo : World → Except Error SystemInfo × World
  NewDeviceFields : List Counter → List Nat
  SetupDcgmFieldsWatch :
    World → List Nat → SystemInfo → Except Error (List (World → World)) × World

/-- The three values `NewDCGMCollector` returns: the collector (`none` for the nil
pointer), the teardown closure and the error (`none` for nil). -/
structure Constructed (World : Type) where
  collector : Option (DCGMCollector (World → World))
  teardown : World → World
  err : Option Error

/-- Source `NewDCGMCollector`. The closure `func() {}` is the identity on the world, the
closure `func() { collector.Cleanup() }` is `Cleanup` of the collector returned. -/
def NewDCGMCollector {World : Type} (pkg : Bindings World) (c : List Counter)
    (useOldNamespace : Bool) (w : World) : Constructed World × World :=
  match pkg.InitializeSystemInfo w with
  | (Except.error err, w1) => (⟨none, fun s => s, some err⟩, w1)
  | (Except.ok sysInfo, w1) =>
    let collector : DCGMCollector (World → World) :=
      { Counters := c
        DeviceFields := pkg.NewDeviceFields c
        Cleanups := []
        UseOldNamespace := useOldNamespace
        SysInfo := sysInfo }
    match pkg.SetupDcgmFieldsWatch w1 collector.DeviceFields sysInfo with
    | (Except.error err, w2) => (⟨none, fun s => s, some err⟩, w2)
    | (Except.ok cleanups, w2) =>
      let collector : DCGMCollector (World → World) := { collector with Cleanups := cleanups }
      (⟨some collector, fun s => Cleanup collector s, none⟩, w2)

/-- Handles that keep a journal (specification side): the world is paired with the list of
the handles called so far, each named by its position in the handle list; handle `k`
acts on the world as the `k`-th given handle and appends `k` to the journal. -/
def journaled {World : Type} (handles : List (World → World)) :
    List (World × List Nat → World × List Nat) :=
  handles.enum.map (fun p => fun s => (p.2 s.1, s.2 ++ [p.1]))

/-- Two idempotent handles on a three-state resource that do not commute. -/
def sampleHandles : List (Fin 3 → Fin 3) :=
  [fun s => if s = 2 then 1 else s, fun s => if s = 0 then 2 else s]

/-- A collector holding the given handles. -/
def sampleHolder {World : Type} (handles : List (World → World)) :
    DCGMCollector (World → World) :=
  { Counters := []
    DeviceFields := []
    Cleanups := handles
    UseOldNamespace := false
    SysInfo := ⟨0, [], false⟩ }

/-- Sample bindings on a world that counts the calls made: discovery fails when
`discoveryFails`, registration fails when `watchFails`; on success discovery finds one GPU
and registration hands back one handle per field. -/
def sampleBindings (discoveryFails watchFails : Bool) : Bindings Nat where
  InitializeSystemInfo := fun w =>
    (if discoveryFails then Except.error ⟨"no devices"⟩
      else Except.ok ⟨1, [sampleGpu 0 []], false⟩, w + 1)
  NewDeviceFields := fun counters => counters.map (fun ctr => ctr.FieldID)
  SetupDcgmFieldsWatch := fun w fields _ =>
    (if watchFails then Except.error ⟨"watch refused"⟩
      else Except.ok (fields.map (fun f => fun s => s + f)), w + 10)

/-- The fetch requests for the monitored entities in enumeration order: without MIG the
GPUs `0 .. GpuCount - 1` by index, with MIG the instances of the GPUs below `GpuCount`,
GPU after GPU, each GPU's instances in declared order, by entity id. -/
def entityRequests {Func : Type} (c : DCGMCollector Func) : List Request :=
  if c.SysInfo.MigEnabled = false then
    (List.range c.SysInfo.GpuCount).map (fun i => Request.gpu i c.DeviceFields)
  else
    instanceRequests c.DeviceFields (flatInstances (c.SysInfo.Gpus.take c.SysInfo.GpuCount))

/-- A collector that requests two fields for its single counter, over the given topology. -/
def sampleShortCollector (mig : Bool) (gpuCount : Nat) (gpus : List GpuInfo) :
    DCGMCollector Unit :=
  { Counters := [⟨150, "DCGM_FI_DEV_GPU_TEMP"⟩]
    DeviceFields := [150, 155]
    Cleanups := []
    UseOldNamespace := false
    SysInfo := ⟨gpuCount, gpus, mig⟩ }

/-! # Theorems -/

/-! ## The loop of `ToMetric` -/

theorem kept_nil (i : Nat) : kept i [] = [] := rfl

theorem kept_cons_skip (i : Nat) (v : FieldValue_v1) (rest : List FieldValue_v1)
    (hv : ToString v = SkipDCGMValue) : kept i (v :: rest) = kept (i + 1) rest := by
  simp [kept, List.enumFrom, hv]

theorem kept_cons_keep (i : Nat) (v : FieldValue_v1) (rest : List FieldValue_v1)
    (hv : ToString v ≠ SkipDCGMValue) : kept i (v :: rest) = (i, v) :: kept (i + 1) rest := by
  simp [kept, List.enumFrom, hv]

/-- The loop of `ToMetric` returns exactly when every kept value has a counter at its
index, and then appends one record per kept value, in order. -/
theorem ToMetric_loop_eq (c : List Counter) (d : Device) (inst : Option GpuInstanceInfo)
    (useOld : Bool) (values : List FieldValue_v1) :
    ∀ (i : Nat) (acc : List Metric),
      ToMetric.loop c d inst useOld i values acc =
        if ∀ p ∈ kept i values, p.1 < c.length then
          some (acc ++ (kept i values).map
            (fun p => buildMetric (c.getD p.1 default) (ToString p.2) d inst useOld))
        else none := by
  induction values with
  | nil => intro i acc; simp [ToMetric.loop, kept_nil]
  | cons v rest ih =>
    intro i acc
    by_cases hv : ToString v = SkipDCGMValue
    · rw [kept_cons_skip i v rest hv]
      simp [ToMetric.loop, hv, ih]
    · rw [kept_cons_keep i v rest hv]
      cases hc : c.get? i with
      | none =>
        have hlen : ¬ i < c.length := by
          intro h
          simp [List.getElem?_eq_getElem h] at hc
        rw [List.get?_eq_getElem?] at hc
        simp [ToMetric.loop, hv, hc, hlen]
      | some ci =>
        have hlen : i < c.length := by
          by_contra h
          simp [List.getElem?_eq_none (Nat.le_of_not_lt h)] at hc
        rw [List.get?_eq_getElem?] at hc
        have hget : c.getD i default = ci := by
          simp [List.getD, hc]
        have hcond : (∀ p ∈ (i, v) :: kept (i + 1) rest, p.1 < c.length) ↔
            (∀ p ∈ kept (i + 1) rest, p.1 < c.length) := by
          constructor
          · intro h p hp
            exact h p (List.mem_cons_of_mem _ hp)
          · intro h p hp
            rcases List.mem_cons.mp hp with rfl | hp
            · exact hlen
            · exact h p hp
        simp only [hcond]
        cases inst <;>
          simp [ToMetric.loop, hv, ih, hc, hget, buildMetric]

/-- Closed form of `ToMetric`. -/
theorem ToMetric_eq (values : List FieldValue_v1) (c : List Counter) (d : Device)
    (inst : Option GpuInstanceInfo) (useOld : Bool) :
    ToMetric values c d inst useOld =
      if ∀ p ∈ kept 0 values, p.1 < c.length then
        some ((kept 0 values).map
          (fun p => buildMetric (c.getD p.1 default) (ToString p.2) d inst useOld))
      else none := by
  simp [ToMetric, ToMetric_loop_eq]

theorem kept_index_bounds (values : List FieldValue_v1) :
    ∀ (i : Nat), ∀ p ∈ kept i values, i ≤ p.1 ∧ p.1 < i + values.length := by
  induction values with
  | nil => intro i p hp; simp [kept_nil] at hp
  | cons v rest ih =>
    intro i p hp
    by_cases hv : ToString v = SkipDCGMValue
    · rw [kept_cons_skip i v rest hv] at hp
      have := ih (i + 1) p hp
      simp only [List.length_cons]
      omega
    · rw [kept_cons_keep i v rest hv] at hp
      rcases List.mem_cons.mp hp with rfl | hp
      · simp
      · have := ih (i + 1) p hp
        simp only [List.length_cons]
        omega

theorem kept_not_skip (i : Nat) (values : List FieldValue_v1) :
    ∀ p ∈ kept i values, ToString p.2 ≠ SkipDCGMValue := by
  intro p hp
  simpa [kept] using (List.mem_filter.mp hp).2

theorem kept_length (values : List FieldValue_v1) :
    ∀ (i : Nat), (kept i values).length =
      values.countP (fun v => decide (ToString v ≠ SkipDCGMValue)) := by
  induction values with
  | nil => intro i; simp [kept_nil]
  | cons v rest ih =>
    intro i
    by_cases hv : ToString v = SkipDCGMValue
    · rw [kept_cons_skip i v rest hv, ih]
      simp [List.countP_cons, hv]
    · rw [kept_cons_keep i v rest hv, List.length_cons, ih]
      simp [List.countP_cons, hv]

/-- With no more values than counters, every kept value has a counter at its index. -/
theorem kept_in_range (values : List FieldValue_v1) (c : List Counter)
    (h : values.length ≤ c.length) : ∀ p ∈ kept 0 values, p.1 < c.length := by
  intro p hp
  have := kept_index_bounds values 0 p hp
  omega

/-! ## The sentinel checks of `ToString` -/

theorem matchesSentinel_iff (value : FieldValue_v1) :
    matchesSentinel value ↔
      (value.Int64 = DCGM_FT_INT32_BLANK ∨ value.Int64 = DCGM_FT_INT32_NOT_FOUND ∨
        value.Int64 = DCGM_FT_INT32_NOT_SUPPORTED ∨
        value.Int64 = DCGM_FT_INT32_NOT_PERMISSIONED ∨ value.Int64 = DCGM_FT_INT64_BLANK ∨
        value.Int64 = DCGM_FT_INT64_NOT_FOUND ∨ value.Int64 = DCGM_FT_INT64_NOT_SUPPORTED ∨
        value.Int64 = DCGM_FT_INT64_NOT_PERMISSIONED) ∨
      (value.Float64.eq DCGM_FT_FP64_BLANK = true ∨
        value.Float64.eq DCGM_FT_FP64_NOT_FOUND = true ∨
        value.Float64.eq DCGM_FT_FP64_NOT_SUPPORTED = true ∨
        value.Float64.eq DCGM_FT_FP64_NOT_PERMISSIONED = true) := by
  unfold matchesSentinel integerSentinels doubleSentinels
  simp only [List.mem_cons, List.mem_singleton, List.not_mem_nil, or_false, exists_eq_or_imp,
    exists_eq_left, exists_false]

theorem ite_eq_of_else {α : Type} (p : Prop) [Decidable p] (a b : α) (h : b = a) :
    (if p then a else b) = a := by
  by_cases hp : p
  · rw [if_pos hp]
  · rw [if_neg hp, h]

theorem ToString_of_matchesSentinel (value : FieldValue_v1)
    (h : matchesSentinel value) : ToString value = SkipDCGMValue := by
  rw [matchesSentinel_iff] at h
  unfold ToString
  dsimp only
  rcases h with (h | h | h | h | h | h | h | h) | (h | h | h | h) <;>
    repeat (first | exact if_pos h | apply ite_eq_of_else)

theorem ToString_of_not_matchesSentinel (value : FieldValue_v1)
    (h : ¬ matchesSentinel value) :
    ToString value =
      if value.FieldType = DCGM_FT_STRING then value.String
      else if value.FieldType = DCGM_FT_DOUBLE then Sprintf_f value.Float64
      else if value.FieldType = DCGM_FT_INT64 then Sprintf_d_int64 value.Int64
      else FailedToConvert := by
  rw [matchesSentinel_iff] at h
  simp only [not_or] at h
  obtain ⟨⟨h1, h2, h3, h4, h5, h6, h7, h8⟩, ⟨h9, h10, h11, h12⟩⟩ := h
  unfold ToString
  dsimp only
  rw [if_neg h1, if_neg h2, if_neg h3, if_neg h4, if_neg h5, if_neg h6, if_neg h7, if_neg h8,
    if_neg h9, if_neg h10, if_neg h11, if_neg h12]

/-! ## Decimal text -/

theorem digitValue_digitChar (k : Nat) (hk : k < 10) :
    digitValue (Nat.digitChar k) = some k := by
  interval_cases k <;> decide

theorem parseDigits_append (xs ys : List Char) :
    ∀ (acc : Nat), parseDigits (xs ++ ys) acc =
      (parseDigits xs acc).bind (fun a => parseDigits ys a) := by
  induction xs with
  | nil => intro acc; simp [parseDigits]
  | cons ch rest ih =>
    intro acc
    simp only [List.cons_append, parseDigits]
    cases digitValue ch with
    | none => simp
    | some dv => simp [ih]

/-- The digits `Nat.toDigitsCore` puts in front of `ds` read back as `n`. -/
theorem toDigitsCore_spec :
    ∀ (fuel n : Nat) (ds : List Char), n < fuel →
      ∃ front : List Char, Nat.toDigitsCore 10 fuel n ds = front ++ ds ∧ front ≠ [] ∧
        ∀ acc, parseDigits front acc = some (acc * 10 ^ front.length + n) := by
  intro fuel
  induction fuel with
  | zero => intro n ds h; omega
  | succ fuel ih =>
    intro n ds hn
    have hd : digitValue (Nat.digitChar (n % 10)) = some (n % 10) :=
      digitValue_digitChar _ (Nat.mod_lt _ (by decide))
    by_cases h0 : n / 10 = 0
    · refine ⟨[Nat.digitChar (n % 10)], ?_, by simp, ?_⟩
      · simp [Nat.toDigitsCore, h0]
      · intro acc
        have hlt : n < 10 := by omega
        have hd0 := digitValue_digitChar n hlt
        simp [parseDigits, hd0, Nat.mod_eq_of_lt hlt]
    · have hlt : n / 10 < fuel := by omega
      obtain ⟨front, hfront, hne, hparse⟩ := ih (n / 10) (Nat.digitChar (n % 10) :: ds) hlt
      refine ⟨front ++ [Nat.digitChar (n % 10)], ?_, by simp, ?_⟩
      · simp [Nat.toDigitsCore, h0, hfront]
      · intro acc
        rw [parseDigits_append, hparse]
        simp only [Option.some_bind, parseDigits, hd, List.length_append, List.length_singleton]
        congr 1
        rw [pow_succ]
        have := Nat.div_add_mod n 10
        nlinarith [Nat.div_add_mod n 10]

theorem parseDecimalNat_repr (n : Nat) :
    (Nat.repr n).data ≠ [] ∧ (Nat.repr n).data.head? ≠ some '-' ∧
      parseDecimalNat (Nat.repr n).data = some n := by
  obtain ⟨front, hfront, hne, hparse⟩ := toDigitsCore_spec (n + 1) n [] (Nat.lt_succ_self n)
  have hdata : (Nat.repr n).data = front := by
    simp [Nat.repr, Nat.toDigits, hfront, List.asString]
  rw [hdata]
  refine ⟨hne, ?_, ?_⟩
  · intro hhead
    cases front with
    | nil => exact hne rfl
    | cons ch rest =>
      simp only [List.head?_cons, Option.some.injEq] at hhead
      have := hparse 0
      rw [hhead] at this
      simp [parseDigits, digitValue] at this
  · simp [parseDecimalNat, hne, hparse]

/-- Reading back the text `%d` prints for a signed operand gives the operand. -/
theorem parseDecimalInt_Sprintf_d_int64 (i : Int) :
    parseDecimalInt (Sprintf_d_int64 i) = some i := by
  obtain ⟨hne, hhead, hparse⟩ := parseDecimalNat_repr i.natAbs
  by_cases hi : i < 0
  · have hdata : (Sprintf_d_int64 i).data = '-' :: (Nat.repr i.natAbs).data := by
      simp [Sprintf_d_int64, hi]
    simp only [parseDecimalInt, hdata, List.head?_cons, if_true, List.tail_cons, hparse]
    congr 1
    omega
  · have hdata : (Sprintf_d_int64 i).data = (Nat.repr i.natAbs).data := by
      simp [Sprintf_d_int64, hi]
    simp only [parseDecimalInt, hdata, if_neg hhead, hparse]
    congr 1
    omega

/-- Membership in `kept 0 values`, index by index. -/
theorem mem_kept_zero (values : List FieldValue_v1) (p : Nat × FieldValue_v1) :
    p ∈ kept 0 values ↔ values.get? p.1 = some p.2 ∧ ToString p.2 ≠ SkipDCGMValue := by
  obtain ⟨i, v⟩ := p
  simp only [kept, List.mem_filter, decide_eq_true_eq]
  rw [show List.enumFrom 0 values = values.enum from rfl, List.mk_mem_enum_iff_getElem?,
    List.get?_eq_getElem?]

/-! ## The loops of `GetMetrics` -/

variable {World Func : Type}

theorem ToMetric_isSome_of_le (values : List FieldValue_v1) (c : List Counter) (d : Device)
    (inst : Option GpuInstanceInfo) (useOld : Bool) (h : values.length ≤ c.length) :
    ∃ ms, ToMetric values c d inst useOld = some ms := by
  rw [ToMetric_eq, if_pos (kept_in_range values c h)]
  exact ⟨_, rfl⟩

/-- The main loop without MIG, when every fetch it makes succeeds: it runs to its end, the
slots `i .. i + todo - 1` receive the conversions of the fetched values, the other slots
are untouched. -/
theorem mainLoop_nonMig (dcgm : Daemon World) (c : DCGMCollector Func)
    (hmig : c.SysInfo.MigEnabled = false) :
    ∀ (todo i : Nat) (metrics : List (List Metric)) (gpuIIndex : Nat) (w : World)
      (vals : List (List FieldValue_v1)),
      i + todo ≤ c.SysInfo.Gpus.length → i + todo ≤ metrics.length →
      dcgm.answers ((List.range' i todo).map (fun j => Request.gpu j c.DeviceFields)) w =
        vals.map Fetched.vals →
      (∀ v ∈ vals, v.length ≤ c.Counters.length) →
      ∃ out, GetMetrics.mainLoop dcgm c todo i metrics gpuIIndex w =
          (Outcome.ok out, dcgm.worldAfter
            ((List.range' i todo).map (fun j => Request.gpu j c.DeviceFields)) w) ∧
        out.length = metrics.length ∧
        (∀ j, j < i ∨ i + todo ≤ j → out.get? j = metrics.get? j) ∧
        ∀ k, k < todo → ∃ gpu v, c.SysInfo.Gpus.get? (i + k) = some gpu ∧
          vals.get? k = some v ∧
          out.get? (i + k) = ToMetric v c.Counters gpu.DeviceInfo none c.UseOldNamespace := by
  intro todo
  induction todo with
  | zero =>
    intro i metrics g w vals _ _ _ _
    exact ⟨metrics, rfl, rfl, fun _ _ => rfl, fun k hk => absurd hk (Nat.not_lt_zero k)⟩
  | succ todo ih =>
    intro i metrics g w vals hgpus hslots hfetch hvals
    have hi : i < c.SysInfo.Gpus.length := by omega
    obtain ⟨gpu, hgpu⟩ : ∃ gpu, c.SysInfo.Gpus.get? i = some gpu :=
      ⟨_, List.get?_eq_get hi⟩
    simp only [List.range'_succ, List.map_cons, Daemon.answers, Daemon.worldAfter,
      Daemon.serve] at hfetch ⊢
    cases vals with
    | nil => simp at hfetch
    | cons v vals =>
      simp only [List.map_cons, List.cons.injEq] at hfetch
      obtain ⟨hfirst, hrest⟩ := hfetch
      obtain ⟨ms, hms⟩ := ToMetric_isSome_of_le v c.Counters gpu.DeviceInfo none
        c.UseOldNamespace (hvals v (List.mem_cons_self _ _))
      have hset : setSlot metrics i ms = some (metrics.set i ms) := by
        simp only [setSlot]
        rw [if_pos (by omega)]
      obtain ⟨out, hout, hlen, hkeep, hnew⟩ := ih (i + 1) (metrics.set i ms) g
        (dcgm.GetLatestValuesForFields w i c.DeviceFields).2 vals (by omega)
        (by rw [List.length_set]; omega) hrest
        (fun u hu => hvals u (List.mem_cons_of_mem _ hu))
      have hpair : dcgm.GetLatestValuesForFields w i c.DeviceFields =
          (Fetched.vals v, (dcgm.GetLatestValuesForFields w i c.DeviceFields).2) := by
        rw [← hfirst]
      refine ⟨out, ?_, ?_, ?_, ?_⟩
      · rw [GetMetrics.mainLoop, hgpu]
        simp only [hmig, if_true]
        rw [hpair]
        simp only [hms, hset]
        exact hout
      · rw [hlen, List.length_set]
      · intro j hj
        rw [hkeep j (by omega)]
        simp only [List.get?_eq_getElem?]
        rw [List.getElem?_set_ne (by omega)]
      · intro k hk
        cases k with
        | zero =>
          refine ⟨gpu, v, hgpu, rfl, ?_⟩
          rw [Nat.add_zero, hkeep i (by omega), hms]
          simp only [List.get?_eq_getElem?]
          rw [List.getElem?_set_self (by omega)]
        | succ k =>
          obtain ⟨gpu1, v1, h1, h2, h3⟩ := hnew k (by omega)
          refine ⟨gpu1, v1, ?_, ?_, ?_⟩
          · rw [← h1]; congr 1; omega
          · simpa using h2
          · rw [← h3]; congr 1; omega

theorem allSucceeded_nil : allSucceeded [] := by
  intro call h
  cases h

theorem allSucceeded_cons (req : Request) (vals : List FieldValue_v1) (log : List Call)
    (h : allSucceeded log) : allSucceeded (⟨req, Fetched.vals vals⟩ :: log) := by
  intro call hc
  rcases List.mem_cons.mp hc with rfl | hc
  · exact ⟨vals, rfl⟩
  · exact h call hc

theorem allSucceeded_append (a b : List Call) (ha : allSucceeded a) (hb : allSucceeded b) :
    allSucceeded (a ++ b) := by
  intro call hc
  rcases List.mem_append.mp hc with hc | hc
  · exact ha call hc
  · exact hb call hc

theorem journalShape_cons {α β : Type} (req : Request) (vals : List FieldValue_v1)
    (o : Outcome α) (o1 : Outcome β) (log : List Call)
    (hsame : ∀ e, o1 = Outcome.error e ↔ o = Outcome.error e)
    (h : journalShape o log) : journalShape o1 (⟨req, Fetched.vals vals⟩ :: log) := by
  cases o1 with
  | error e =>
    have ho : o = Outcome.error e := (hsame e).mp rfl
    subst ho
    obtain ⟨pre, r, hlog, hpre⟩ := h
    exact ⟨⟨req, Fetched.vals vals⟩ :: pre, r, by rw [hlog]; rfl,
      allSucceeded_cons req vals pre hpre⟩
  | panic =>
    cases o with
    | error e => exact absurd ((hsame e).mpr rfl) (by simp)
    | panic => exact allSucceeded_cons req vals log h
    | ok a => exact allSucceeded_cons req vals log h
  | ok b =>
    cases o with
    | error e => exact absurd ((hsame e).mpr rfl) (by simp)
    | panic => exact allSucceeded_cons req vals log h
    | ok a => exact allSucceeded_cons req vals log h

theorem recording_entity (dcgm : Daemon World) (w : World) (log : List Call)
    (group : Field_Entity_Group) (entityId : Nat) (fields : List Nat) :
    dcgm.recording.EntityGetLatestValues (w, log) group entityId fields =
      ((dcgm.EntityGetLatestValues w group entityId fields).1,
        ((dcgm.EntityGetLatestValues w group entityId fields).2,
          log ++ [⟨Request.entity group entityId fields,
            (dcgm.EntityGetLatestValues w group entityId fields).1⟩])) := rfl

theorem recording_gpu (dcgm : Daemon World) (w : World) (log : List Call)
    (gpuId : Nat) (fields : List Nat) :
    dcgm.recording.GetLatestValuesForFields (w, log) gpuId fields =
      ((dcgm.GetLatestValuesForFields w gpuId fields).1,
        ((dcgm.GetLatestValuesForFields w gpuId fields).2,
          log ++ [⟨Request.gpu gpuId fields,
            (dcgm.GetLatestValuesForFields w gpuId fields).1⟩])) := rfl

/-- The inner loop against the recording daemon: same outcome and world as against the
daemon itself, and a journal of the stated shape, made of the requests for a prefix of
the instances (all of them when the loop runs to its end). -/
theorem instanceLoop_recording (dcgm : Daemon World) (c : DCGMCollector Func)
    (deviceInfo : Device) :
    ∀ (insts : List GpuInstanceInfo) (metrics : List (List Metric)) (gpuIIndex : Nat)
      (w : World) (log : List Call),
      ∃ new, GetMetrics.instanceLoop dcgm.recording c deviceInfo insts metrics gpuIIndex
            (w, log) =
          ((GetMetrics.instanceLoop dcgm c deviceInfo insts metrics gpuIIndex w).1,
            ((GetMetrics.instanceLoop dcgm c deviceInfo insts metrics gpuIIndex w).2,
              log ++ new)) ∧
        journalShape (GetMetrics.instanceLoop dcgm c deviceInfo insts metrics gpuIIndex w).1
          new ∧
        new.map Call.request <+: insts.map (fun inst =>
          Request.entity Field_Entity_Group.FE_GPU_I inst.EntityId c.DeviceFields) ∧
        ∀ r, (GetMetrics.instanceLoop dcgm c deviceInfo insts metrics gpuIIndex w).1 =
            Outcome.ok r →
          new.map Call.request = insts.map (fun inst =>
            Request.entity Field_Entity_Group.FE_GPU_I inst.EntityId c.DeviceFields) := by
  intro insts
  induction insts with
  | nil =>
    intro metrics g w log
    exact ⟨[], by simp [GetMetrics.instanceLoop], allSucceeded_nil, by simp, fun _ _ => rfl⟩
  | cons inst rest ih =>
    intro metrics g w log
    cases hcall : dcgm.EntityGetLatestValues w Field_Entity_Group.FE_GPU_I inst.EntityId
        c.DeviceFields with
    | mk answer w1 =>
      cases answer with
      | err e =>
        refine ⟨[⟨Request.entity Field_Entity_Group.FE_GPU_I inst.EntityId c.DeviceFields,
          Fetched.err e⟩], ?_, ?_, ?_, ?_⟩
        · simp [GetMetrics.instanceLoop, recording_entity, hcall]
        · simp only [GetMetrics.instanceLoop, hcall]
          exact ⟨[], _, rfl, allSucceeded_nil⟩
        · simp [List.map_cons]
        · intro r hr
          simp [GetMetrics.instanceLoop, hcall] at hr
      | vals vs =>
        cases hms : ToMetric vs c.Counters deviceInfo (some inst) c.UseOldNamespace with
        | none =>
          refine ⟨[⟨Request.entity Field_Entity_Group.FE_GPU_I inst.EntityId c.DeviceFields,
            Fetched.vals vs⟩], ?_, ?_, ?_, ?_⟩
          · simp [GetMetrics.instanceLoop, recording_entity, hcall, hms]
          · simp only [GetMetrics.instanceLoop, hcall, hms]
            exact allSucceeded_cons _ _ _ allSucceeded_nil
          · simp [List.map_cons]
          · intro r hr
            simp [GetMetrics.instanceLoop, hcall, hms] at hr
        | some ms =>
          cases hset : setSlot metrics g ms with
          | none =>
            refine ⟨[⟨Request.entity Field_Entity_Group.FE_GPU_I inst.EntityId
              c.DeviceFields, Fetched.vals vs⟩], ?_, ?_, ?_, ?_⟩
            · simp [GetMetrics.instanceLoop, recording_entity, hcall, hms, hset]
            · simp only [GetMetrics.instanceLoop, hcall, hms, hset]
              exact allSucceeded_cons _ _ _ allSucceeded_nil
            · simp [List.map_cons]
            · intro r hr
              simp [GetMetrics.instanceLoop, hcall, hms, hset] at hr
          | some metrics1 =>
            obtain ⟨new, hrun, hshape, hpre, hall⟩ := ih metrics1 (g + 1) w1
              (log ++ [⟨Request.entity Field_Entity_Group.FE_GPU_I inst.EntityId
                c.DeviceFields, Fetched.vals vs⟩])
            refine ⟨⟨Request.entity Field_Entity_Group.FE_GPU_I inst.EntityId
              c.DeviceFields, Fetched.vals vs⟩ :: new, ?_, ?_, ?_, ?_⟩
            · simp [GetMetrics.instanceLoop, recording_entity, hcall, hms, hset, hrun]
            · simp only [GetMetrics.instanceLoop, hcall, hms, hset]
              exact journalShape_cons _ _ _ _ _ (fun _ => Iff.rfl) hshape
            · simp only [List.map_cons]
              exact (List.prefix_cons_inj _).mpr hpre
            · intro r hr
              simp only [GetMetrics.instanceLoop, hcall, hms, hset] at hr
              simp only [List.map_cons, hall r hr]

theorem journalShape_append {α β : Type} (o : Outcome α) (o1 : Outcome β) (a b : List Call)
    (hsame : ∀ e, o1 = Outcome.error e ↔ o = Outcome.error e)
    (ha : allSucceeded a) (hb : journalShape o b) : journalShape o1 (a ++ b) := by
  cases o1 with
  | error e =>
    have ho : o = Outcome.error e := (hsame e).mp rfl
    subst ho
    obtain ⟨pre, r, hlog, hpre⟩ := hb
    exact ⟨a ++ pre, r, by rw [hlog, List.append_assoc], allSucceeded_append a pre ha hpre⟩
  | panic =>
    cases o with
    | error e => exact absurd ((hsame e).mpr rfl) (by simp)
    | panic => exact allSucceeded_append a b ha hb
    | ok x => exact allSucceeded_append a b ha hb
  | ok y =>
    cases o with
    | error e => exact absurd ((hsame e).mpr rfl) (by simp)
    | panic => exact allSucceeded_append a b ha hb
    | ok x => exact allSucceeded_append a b ha hb

theorem loopRequests_succ_nonMig (c : DCGMCollector Func) (i todo : Nat)
    (hmig : c.SysInfo.MigEnabled = false) :
    loopRequests c i (todo + 1) =
      Request.gpu i c.DeviceFields :: loopRequests c (i + 1) todo := by
  simp [loopRequests, hmig, List.range'_succ]

theorem loopRequests_succ_mig (c : DCGMCollector Func) (i todo : Nat) (gpu : GpuInfo)
    (hmig : ¬ c.SysInfo.MigEnabled = false) (hgpu : c.SysInfo.Gpus.get? i = some gpu) :
    loopRequests c i (todo + 1) =
      gpu.GpuInstances.map (fun inst =>
        Request.entity Field_Entity_Group.FE_GPU_I inst.EntityId c.DeviceFields) ++
      loopRequests c (i + 1) todo := by
  have hi : i < c.SysInfo.Gpus.length := by
    by_contra h
    rw [List.get?_eq_none.mpr (Nat.le_of_not_lt h)] at hgpu
    cases hgpu
  have hget : c.SysInfo.Gpus[i] = gpu := by
    rw [List.get?_eq_getElem?, List.getElem?_eq_getElem hi] at hgpu
    exact Option.some.inj hgpu
  simp only [loopRequests, if_neg hmig]
  rw [List.drop_eq_getElem_cons hi, hget, List.take_succ_cons, List.flatMap_cons,
    List.map_append]

/-- The main loop against the recording daemon: same outcome and world as against the
daemon itself, and a journal of the stated shape whose requests are a prefix of the
requests the loop is about to make. -/
theorem mainLoop_recording (dcgm : Daemon World) (c : DCGMCollector Func) :
    ∀ (todo i : Nat) (metrics : List (List Metric)) (gpuIIndex : Nat) (w : World)
      (log : List Call),
      ∃ new, GetMetrics.mainLoop dcgm.recording c todo i metrics gpuIIndex (w, log) =
          ((GetMetrics.mainLoop dcgm c todo i metrics gpuIIndex w).1,
            ((GetMetrics.mainLoop dcgm c todo i metrics gpuIIndex w).2, log ++ new)) ∧
        journalShape (GetMetrics.mainLoop dcgm c todo i metrics gpuIIndex w).1 new ∧
        new.map Call.request <+: loopRequests c i todo := by
  intro todo
  induction todo with
  | zero =>
    intro i metrics g w log
    exact ⟨[], by simp [GetMetrics.mainLoop], allSucceeded_nil, by simp⟩
  | succ todo ih =>
    intro i metrics g w log
    cases hgpu : c.SysInfo.Gpus.get? i with
    | none =>
      have hgpu1 := hgpu
      rw [List.get?_eq_getElem?] at hgpu1
      exact ⟨[], by simp [GetMetrics.mainLoop, hgpu1], by
        simp only [GetMetrics.mainLoop, hgpu]
        exact allSucceeded_nil, by simp⟩
    | some gpu =>
      have hgpu1 := hgpu
      rw [List.get?_eq_getElem?] at hgpu1
      by_cases hmig : c.SysInfo.MigEnabled = false
      · rw [loopRequests_succ_nonMig c i todo hmig]
        cases hcall : dcgm.GetLatestValuesForFields w i c.DeviceFields with
        | mk answer w1 =>
          cases answer with
          | err e =>
            refine ⟨[⟨Request.gpu i c.DeviceFields, Fetched.err e⟩], ?_, ?_, ?_⟩
            · simp [GetMetrics.mainLoop, hgpu1, hmig, recording_gpu, hcall]
            · simp only [GetMetrics.mainLoop, hgpu, hmig, if_true, hcall]
              exact ⟨[], _, rfl, allSucceeded_nil⟩
            · simp
          | vals vs =>
            cases hms : ToMetric vs c.Counters gpu.DeviceInfo none c.UseOldNamespace with
            | none =>
              refine ⟨[⟨Request.gpu i c.DeviceFields, Fetched.vals vs⟩], ?_, ?_, ?_⟩
              · simp [GetMetrics.mainLoop, hgpu1, hmig, recording_gpu, hcall, hms]
              · simp only [GetMetrics.mainLoop, hgpu, hmig, if_true, hcall, hms]
                exact allSucceeded_cons _ _ _ allSucceeded_nil
              · simp
            | some ms =>
              cases hset : setSlot metrics i ms with
              | none =>
                refine ⟨[⟨Request.gpu i c.DeviceFields, Fetched.vals vs⟩], ?_, ?_, ?_⟩
                · simp [GetMetrics.mainLoop, hgpu1, hmig, recording_gpu, hcall, hms, hset]
                · simp only [GetMetrics.mainLoop, hgpu, hmig, if_true, hcall, hms, hset]
                  exact allSucceeded_cons _ _ _ allSucceeded_nil
                · simp
              | some metrics1 =>
                obtain ⟨new, hrun, hshape, hpre⟩ := ih (i + 1) metrics1 g w1
                  (log ++ [⟨Request.gpu i c.DeviceFields, Fetched.vals vs⟩])
                refine ⟨⟨Request.gpu i c.DeviceFields, Fetched.vals vs⟩ :: new, ?_, ?_, ?_⟩
                · simp [GetMetrics.mainLoop, hgpu1, hmig, recording_gpu, hcall, hms, hset,
                    hrun]
                · simp only [GetMetrics.mainLoop, hgpu, hmig, if_true, hcall, hms, hset]
                  exact journalShape_cons _ _ _ _ _ (fun _ => Iff.rfl) hshape
                · simp only [List.map_cons]
                  exact (List.prefix_cons_inj _).mpr hpre
      · rw [loopRequests_succ_mig c i todo gpu hmig hgpu]
        obtain ⟨new1, hrun1, hshape1, hpre1, hall1⟩ := instanceLoop_recording dcgm c
          gpu.DeviceInfo gpu.GpuInstances metrics g w log
        cases hinner : GetMetrics.instanceLoop dcgm c gpu.DeviceInfo gpu.GpuInstances metrics
            g w with
        | mk o w1 =>
          rw [hinner] at hrun1 hshape1 hall1
          cases o with
          | panic =>
            refine ⟨new1, ?_, ?_, ?_⟩
            · simp [GetMetrics.mainLoop, hgpu1, hmig, hrun1, hinner]
            · simp only [GetMetrics.mainLoop, hgpu, hmig, if_false, hinner]
              exact hshape1
            · exact hpre1.trans (List.prefix_append _ _)
          | error e =>
            refine ⟨new1, ?_, ?_, ?_⟩
            · simp [GetMetrics.mainLoop, hgpu1, hmig, hrun1, hinner]
            · simp only [GetMetrics.mainLoop, hgpu, hmig, if_false, hinner]
              exact hshape1
            · exact hpre1.trans (List.prefix_append _ _)
          | ok r =>
            obtain ⟨metrics1, g1⟩ := r
            obtain ⟨new2, hrun2, hshape2, hpre2⟩ := ih (i + 1) metrics1 g1 w1 (log ++ new1)
            refine ⟨new1 ++ new2, ?_, ?_, ?_⟩
            · simp [GetMetrics.mainLoop, hgpu1, hmig, hrun1, hinner, hrun2]
            · simp only [GetMetrics.mainLoop, hgpu, hmig, if_false, hinner]
              exact journalShape_append _ _ _ _ (fun _ => Iff.rfl) hshape1 hshape2
            · rw [List.map_append, hall1 _ rfl]
              exact (List.prefix_append_right_inj _).mpr hpre2

theorem loopRequests_prefix_enumeration (c : DCGMCollector Func) (count : Nat)
    (hcount : c.SysInfo.MigEnabled = false → count = c.SysInfo.GpuCount) :
    loopRequests c 0 count <+: enumeration c := by
  unfold loopRequests enumeration
  by_cases hmig : c.SysInfo.MigEnabled = false
  · rw [if_pos hmig, if_pos hmig, hcount hmig, List.range_eq_range']
  · rw [if_neg hmig, if_neg hmig, List.drop_zero]
    apply List.IsPrefix.map
    obtain ⟨t, ht⟩ := List.take_prefix count c.SysInfo.Gpus
    conv_rhs => rw [← ht, List.flatMap_append]
    exact List.prefix_append _ _

/-! ## Claims on the converter -/

/-- C1: with no more values than counters, `ToMetric` returns; no record it emits carries
the skip marker as its value, and it emits as many records as there are input values whose
`ToString` is not the skip marker, hence at most as many as there are values. -/
theorem ToMetric_omits_skipped (values : List FieldValue_v1) (c : List Counter) (d : Device)
    (instanceInfo : Option GpuInstanceInfo) (useOld : Bool)
    (h : values.length ≤ c.length) :
    ∃ ms, ToMetric values c d instanceInfo useOld = some ms ∧
      (∀ m ∈ ms, m.Value ≠ SkipDCGMValue) ∧
      ms.length = values.countP (fun v => decide (ToString v ≠ SkipDCGMValue)) ∧
      ms.length ≤ values.length := by
  refine ⟨(kept 0 values).map
      (fun p => buildMetric (c.getD p.1 default) (ToString p.2) d instanceInfo useOld),
    ?_, ?_, ?_, ?_⟩
  · rw [ToMetric_eq, if_pos (kept_in_range values c h)]
  · intro m hm
    obtain ⟨p, hp, rfl⟩ := List.mem_map.mp hm
    exact kept_not_skip 0 values p hp
  · rw [List.length_map, kept_length]
  · rw [List.length_map, kept_length]
    exact List.countP_le_length _

theorem ToMetric_omits_skipped_witness :
    [(⟨DCGM_FT_INT64, 42, ""⟩ : FieldValue_v1), ⟨DCGM_FT_INT64, 2147483632, ""⟩].length ≤
        [(⟨1, "temp"⟩ : Counter), ⟨2, "power"⟩].length ∧
      ∃ ms, ToMetric [⟨DCGM_FT_INT64, 42, ""⟩, ⟨DCGM_FT_INT64, 2147483632, ""⟩]
          [⟨1, "temp"⟩, ⟨2, "power"⟩] ⟨0, "GPU-0"⟩ none false = some ms ∧
        (∀ m ∈ ms, m.Value ≠ SkipDCGMValue) ∧
        ms.length = List.countP (fun v => decide (ToString v ≠ SkipDCGMValue))
          [⟨DCGM_FT_INT64, 42, ""⟩, ⟨DCGM_FT_INT64, 2147483632, ""⟩] ∧
        ms.length ≤
          [(⟨DCGM_FT_INT64, 42, ""⟩ : FieldValue_v1), ⟨DCGM_FT_INT64, 2147483632, ""⟩].length :=
  ⟨by decide, ToMetric_omits_skipped _ _ _ _ _ (by decide)⟩

/-- C2: with no more values than counters, the output of `ToMetric` lists, in increasing
index order, one record per index `i` whose value is not skipped; its name is the display
name of the counter at the same index `i`, its value is `ToString values[i]`, its GPU label
the decimal GPU index, its GPU UUID the device UUID, its device label `nvidia` followed by
the decimal GPU index, and its attribute map is empty. -/
theorem ToMetric_positional (values : List FieldValue_v1) (c : List Counter) (d : Device)
    (instanceInfo : Option GpuInstanceInfo) (useOld : Bool)
    (h : values.length ≤ c.length) :
    ∃ ms, ToMetric values c d instanceInfo useOld = some ms ∧
      ms.map (fun m => (some m.Name, m.Value, m.GPU, m.GPUUUID, m.GPUDevice, m.Attributes)) =
        (values.enum.filter (fun p => decide (ToString p.2 ≠ SkipDCGMValue))).map
          (fun p => ((c.get? p.1).map Counter.FieldName, ToString p.2, Sprintf_d_uint d.GPU,
            d.UUID, "nvidia" ++ Sprintf_d_uint d.GPU, [])) := by
  refine ⟨(kept 0 values).map
      (fun p => buildMetric (c.getD p.1 default) (ToString p.2) d instanceInfo useOld),
    ?_, ?_⟩
  · rw [ToMetric_eq, if_pos (kept_in_range values c h)]
  · rw [List.map_map]
    show List.map _ (kept 0 values) = List.map _ (kept 0 values)
    apply List.map_congr_left
    intro p hp
    have hlt : p.1 < c.length := kept_in_range values c h p hp
    simp [buildMetric, List.getD, List.getElem?_eq_getElem hlt]

theorem ToMetric_positional_witness :
    [(⟨DCGM_FT_INT64, 2147483632, ""⟩ : FieldValue_v1), ⟨DCGM_FT_STRING, 0, "ok"⟩].length ≤
        [(⟨1, "temp"⟩ : Counter), ⟨2, "state"⟩].length ∧
      ∃ ms, ToMetric [⟨DCGM_FT_INT64, 2147483632, ""⟩, ⟨DCGM_FT_STRING, 0, "ok"⟩]
          [⟨1, "temp"⟩, ⟨2, "state"⟩] ⟨3, "GPU-3"⟩ none false = some ms ∧
        ms.map (fun m => (some m.Name, m.Value, m.GPU, m.GPUUUID, m.GPUDevice, m.Attributes)) =
          ((List.enum [(⟨DCGM_FT_INT64, 2147483632, ""⟩ : FieldValue_v1),
              ⟨DCGM_FT_STRING, 0, "ok"⟩]).filter
            (fun p => decide (ToString p.2 ≠ SkipDCGMValue))).map
            (fun p => ((List.get? [(⟨1, "temp"⟩ : Counter), ⟨2, "state"⟩] p.1).map
              Counter.FieldName, ToString p.2, Sprintf_d_uint 3, "GPU-3",
              "nvidia" ++ Sprintf_d_uint 3, [])) :=
  ⟨by decide, ToMetric_positional _ _ _ _ _ (by decide)⟩

/-- C3: a value whose `Int64()` reading is one of the integer sentinel constants, or whose
`Float64()` reading equals one of the double sentinel constants, is turned into the skip
marker by `ToString`, whatever its declared type tag is. -/
theorem ToString_sentinel (value : FieldValue_v1)
    (h : value.Int64 ∈ integerSentinels ∨
      ∃ s ∈ doubleSentinels, value.Float64.eq s = true) :
    ∀ t : Nat, ToString { value with FieldType := t } = SkipDCGMValue := by
  intro t
  exact ToString_of_matchesSentinel { value with FieldType := t } h

theorem ToString_sentinel_witness :
    ((⟨DCGM_FT_STRING, 2147483633, "text"⟩ : FieldValue_v1).Int64 ∈ integerSentinels ∨
        ∃ s ∈ doubleSentinels,
          (⟨DCGM_FT_STRING, 2147483633, "text"⟩ : FieldValue_v1).Float64.eq s = true) ∧
      ∀ t : Nat, ToString { (⟨DCGM_FT_STRING, 2147483633, "text"⟩ : FieldValue_v1) with
        FieldType := t } = SkipDCGMValue :=
  ⟨by decide, ToString_sentinel _ (by decide)⟩

/-- C9: for a value declared as a string whose two numeric readings match no sentinel
constant, `ToString` returns the stored string, unchanged. -/
theorem ToString_string (value : FieldValue_v1) (ht : value.FieldType = DCGM_FT_STRING)
    (hs : ¬ matchesSentinel value) : ToString value = value.String := by
  rw [ToString_of_not_matchesSentinel value hs, if_pos ht]

theorem ToString_string_witness :
    (⟨DCGM_FT_STRING, 28259013852491333, "Enabled"⟩ : FieldValue_v1).FieldType =
        DCGM_FT_STRING ∧
      ¬ matchesSentinel ⟨DCGM_FT_STRING, 28259013852491333, "Enabled"⟩ ∧
      ToString ⟨DCGM_FT_STRING, 28259013852491333, "Enabled"⟩ =
        (⟨DCGM_FT_STRING, 28259013852491333, "Enabled"⟩ : FieldValue_v1).String :=
  ⟨by decide, by decide, ToString_string _ (by decide) (by decide)⟩

/-- C10: for a value declared as int64 whose two numeric readings match no sentinel
constant, `ToString` returns the signed decimal text of its `Int64()` reading, and reading
that text back as a decimal integer gives the same integer. -/
theorem ToString_int64 (value : FieldValue_v1) (ht : value.FieldType = DCGM_FT_INT64)
    (hs : ¬ matchesSentinel value) :
    ToString value = Sprintf_d_int64 value.Int64 ∧
      parseDecimalInt (ToString value) = some value.Int64 := by
  have hne : ¬ DCGM_FT_INT64 = DCGM_FT_STRING := by decide
  have hnd : ¬ DCGM_FT_INT64 = DCGM_FT_DOUBLE := by decide
  have h : ToString value = Sprintf_d_int64 value.Int64 := by
    rw [ToString_of_not_matchesSentinel value hs, ht, if_neg hne, if_neg hnd, if_pos rfl]
  exact ⟨h, by rw [h]; exact parseDecimalInt_Sprintf_d_int64 _⟩

theorem ToString_int64_witness :
    (ToString ⟨DCGM_FT_INT64, 2 ^ 64 - 5, ""⟩ = "-5" ∧
        parseDecimalInt (ToString ⟨DCGM_FT_INT64, 2 ^ 64 - 5, ""⟩) = some (-5)) ∧
      (ToString ⟨DCGM_FT_INT64, 0, ""⟩ = "0" ∧
        parseDecimalInt (ToString ⟨DCGM_FT_INT64, 0, ""⟩) = some 0) ∧
      (ToString ⟨DCGM_FT_INT64, 42, ""⟩ = "42" ∧
        parseDecimalInt (ToString ⟨DCGM_FT_INT64, 42, ""⟩) = some 42) :=
  ⟨ToString_int64 ⟨DCGM_FT_INT64, 2 ^ 64 - 5, ""⟩ (by decide) (by decide),
    ToString_int64 ⟨DCGM_FT_INT64, 0, ""⟩ (by decide) (by decide),
    ToString_int64 ⟨DCGM_FT_INT64, 42, ""⟩ (by decide) (by decide)⟩

/-- C7 (amended): when every value that is not skipped has a counter at its index (in
particular when there are no more values than counters), `ToMetric` with `useOld = false`
and with `useOld = true` both return, the two outputs have the same length and agree
position by position on every field except `UUID`, which is `"UUID"` throughout the first
and `"uuid"` throughout the second. -/
theorem ToMetric_flag_changes_uuid_only (values : List FieldValue_v1) (c : List Counter)
    (d : Device) (instanceInfo : Option GpuInstanceInfo)
    (h : ∀ (i : Nat) (v : FieldValue_v1), values.get? i = some v →
      ToString v ≠ SkipDCGMValue → i < c.length) :
    ∃ ms1 ms2, ToMetric values c d instanceInfo false = some ms1 ∧
      ToMetric values c d instanceInfo true = some ms2 ∧
      ms1.length = ms2.length ∧
      List.Forall₂ (fun a b => a.Name = b.Name ∧ a.Value = b.Value ∧ a.GPU = b.GPU ∧
        a.GPUUUID = b.GPUUUID ∧ a.GPUDevice = b.GPUDevice ∧ a.MigProfile = b.MigProfile ∧
        a.GPUInstanceID = b.GPUInstanceID ∧ a.Attributes = b.Attributes ∧
        a.UUID = "UUID" ∧ b.UUID = "uuid") ms1 ms2 := by
  have hk : ∀ p ∈ kept 0 values, p.1 < c.length := by
    intro p hp
    obtain ⟨h1, h2⟩ := (mem_kept_zero values p).mp hp
    exact h p.1 p.2 h1 h2
  refine ⟨(kept 0 values).map
      (fun p => buildMetric (c.getD p.1 default) (ToString p.2) d instanceInfo false),
    (kept 0 values).map
      (fun p => buildMetric (c.getD p.1 default) (ToString p.2) d instanceInfo true),
    ?_, ?_, ?_, ?_⟩
  · rw [ToMetric_eq, if_pos hk]
  · rw [ToMetric_eq, if_pos hk]
  · simp
  · rw [List.forall₂_map_left_iff, List.forall₂_map_right_iff]
    apply List.forall₂_same.mpr
    intro p _
    simp [buildMetric]

theorem ToMetric_flag_changes_uuid_only_witness :
    ∃ ms1 ms2,
      ToMetric [⟨DCGM_FT_INT64, 42, ""⟩, ⟨DCGM_FT_INT64, 2147483632, ""⟩] [⟨1, "temp"⟩]
        ⟨0, "GPU-0"⟩ none false = some ms1 ∧
      ToMetric [⟨DCGM_FT_INT64, 42, ""⟩, ⟨DCGM_FT_INT64, 2147483632, ""⟩] [⟨1, "temp"⟩]
        ⟨0, "GPU-0"⟩ none true = some ms2 ∧
      ms1.length = ms2.length ∧
      List.Forall₂ (fun a b => a.Name = b.Name ∧ a.Value = b.Value ∧ a.GPU = b.GPU ∧
        a.GPUUUID = b.GPUUUID ∧ a.GPUDevice = b.GPUDevice ∧ a.MigProfile = b.MigProfile ∧
        a.GPUInstanceID = b.GPUInstanceID ∧ a.Attributes = b.Attributes ∧
        a.UUID = "UUID" ∧ b.UUID = "uuid") ms1 ms2 :=
  ToMetric_flag_changes_uuid_only _ _ _ _ (by
    intro i v hv hs
    match i, hv with
    | 0, _ => decide
    | 1, hv =>
      simp only [List.get?, Option.some.injEq] at hv
      subst hv
      exact absurd (by decide) hs
    | k + 2, hv => simp [List.get?] at hv)

/-- C7 (as stated) fails: with one value that is not skipped and no counter, the index
expression `c[0]` panics, so neither call returns an output. -/
theorem ToMetric_flag_counterexample :
    ToMetric [⟨DCGM_FT_INT64, 5, ""⟩] [] ⟨0, "GPU-0"⟩ none false = none ∧
      ToMetric [⟨DCGM_FT_INT64, 5, ""⟩] [] ⟨0, "GPU-0"⟩ none true = none := by
  decide

/-- C8: every record `ToMetric` emits when called without instance identity has an empty
MIG profile and an empty instance id; every record it emits when called with an instance
identity carries that identity's profile name and the decimal text of its numeric instance
id. -/
theorem ToMetric_instance_labels (values : List FieldValue_v1) (c : List Counter) (d : Device)
    (useOld : Bool) (ms : List Metric) :
    (ToMetric values c d none useOld = some ms →
      ∀ m ∈ ms, m.MigProfile = "" ∧ m.GPUInstanceID = "") ∧
    (∀ info : GpuInstanceInfo, ToMetric values c d (some info) useOld = some ms →
      ∀ m ∈ ms, m.MigProfile = info.ProfileName ∧
        m.GPUInstanceID = Sprintf_d_uint info.Info.NvmlInstanceId) := by
  constructor
  · intro h m hm
    rw [ToMetric_eq] at h
    split_ifs at h
    cases h
    obtain ⟨p, _, rfl⟩ := List.mem_map.mp hm
    simp [buildMetric]
  · intro info h m hm
    rw [ToMetric_eq] at h
    split_ifs at h
    cases h
    obtain ⟨p, _, rfl⟩ := List.mem_map.mp hm
    simp [buildMetric]

theorem ToMetric_instance_labels_witness :
    (∀ m ∈ [buildMetric ⟨1, "temp"⟩ "42" ⟨0, "GPU-0"⟩ none false],
        m.MigProfile = "" ∧ m.GPUInstanceID = "") ∧
      (∀ m ∈ [buildMetric ⟨1, "temp"⟩ "42" ⟨0, "GPU-0"⟩ (some ⟨⟨3⟩, "1g.5gb", 7⟩) false],
        m.MigProfile = "1g.5gb" ∧ m.GPUInstanceID = Sprintf_d_uint 3) :=
  ⟨(ToMetric_instance_labels [⟨DCGM_FT_INT64, 42, ""⟩] [⟨1, "temp"⟩] ⟨0, "GPU-0"⟩ false
      [buildMetric ⟨1, "temp"⟩ "42" ⟨0, "GPU-0"⟩ none false]).1 (by decide),
    (ToMetric_instance_labels [⟨DCGM_FT_INT64, 42, ""⟩] [⟨1, "temp"⟩] ⟨0, "GPU-0"⟩ false
      [buildMetric ⟨1, "temp"⟩ "42" ⟨0, "GPU-0"⟩ (some ⟨⟨3⟩, "1g.5gb", 7⟩) false]).2
      ⟨⟨3⟩, "1g.5gb", 7⟩ (by decide)⟩

/-! ## Claims on the collector -/

/-- C5 (amended): without MIG, on a topology listing at least `GpuCount` GPUs, when the fetches for
the GPU indices `0 .. GpuCount - 1`, issued in that order, all succeed (each with no more
values than there are counters), `GetMetrics` returns exactly `GpuCount` groups, and
group `i` is `ToMetric` of the values fetched for GPU index `i`, the counters, the device
identity of `Gpus[i]`, no instance identity and the namespace flag. -/
theorem GetMetrics_without_mig (dcgm : Daemon World) (c : DCGMCollector Func) (w : World)
    (vals : List (List FieldValue_v1))
    (hmig : c.SysInfo.MigEnabled = false)
    (hgpus : c.SysInfo.GpuCount ≤ c.SysInfo.Gpus.length)
    (hfetch : dcgm.answers
      ((List.range c.SysInfo.GpuCount).map (fun i => Request.gpu i c.DeviceFields)) w =
        vals.map Fetched.vals)
    (hvals : ∀ v ∈ vals, v.length ≤ c.Counters.length) :
    ∃ groups, GetMetrics dcgm c w = (Outcome.ok groups, dcgm.worldAfter
          ((List.range c.SysInfo.GpuCount).map (fun i => Request.gpu i c.DeviceFields)) w) ∧
      groups.length = c.SysInfo.GpuCount ∧
      ∀ i, i < c.SysInfo.GpuCount → ∃ gpu v, c.SysInfo.Gpus.get? i = some gpu ∧
        vals.get? i = some v ∧
        groups.get? i = ToMetric v c.Counters gpu.DeviceInfo none c.UseOldNamespace := by
  rw [List.range_eq_range'] at hfetch ⊢
  obtain ⟨out, hout, hlen, _, hnew⟩ := mainLoop_nonMig dcgm c hmig c.SysInfo.GpuCount 0
    (List.replicate c.SysInfo.GpuCount []) 0 w vals (by omega) (by simp) hfetch hvals
  refine ⟨out, ?_, ?_, ?_⟩
  · simp only [GetMetrics, hmig, Bool.false_eq_true, if_false]
    exact hout
  · rw [hlen, List.length_replicate]
  · intro i hi
    obtain ⟨gpu, v, h1, h2, h3⟩ := hnew i hi
    rw [Nat.zero_add] at h1 h3
    exact ⟨gpu, v, h1, h2, h3⟩

theorem GetMetrics_without_mig_witness :
    ∃ groups, GetMetrics (sampleDaemon 9)
        (sampleCollector false 2 [sampleGpu 0 [], sampleGpu 1 []]) 0 =
          (Outcome.ok groups, 2) ∧
      groups.length = 2 ∧
      ∀ i, i < 2 → ∃ gpu v, [sampleGpu 0 [], sampleGpu 1 []].get? i = some gpu ∧
        [[(⟨DCGM_FT_INT64, 150, ""⟩ : FieldValue_v1), ⟨DCGM_FT_INT64, 155, ""⟩,
            ⟨DCGM_FT_INT64, 203, ""⟩],
          [⟨DCGM_FT_INT64, 1150, ""⟩, ⟨DCGM_FT_INT64, 1155, ""⟩,
            ⟨DCGM_FT_INT64, 1203, ""⟩]].get? i = some v ∧
        groups.get? i = ToMetric v
          [⟨150, "DCGM_FI_DEV_GPU_TEMP"⟩, ⟨155, "DCGM_FI_DEV_POWER_USAGE"⟩,
            ⟨203, "DCGM_FI_DEV_GPU_UTIL"⟩] gpu.DeviceInfo none false :=
  GetMetrics_without_mig (sampleDaemon 9)
    (sampleCollector false 2 [sampleGpu 0 [], sampleGpu 1 []]) 0
    [[⟨DCGM_FT_INT64, 150, ""⟩, ⟨DCGM_FT_INT64, 155, ""⟩, ⟨DCGM_FT_INT64, 203, ""⟩],
      [⟨DCGM_FT_INT64, 1150, ""⟩, ⟨DCGM_FT_INT64, 1155, ""⟩, ⟨DCGM_FT_INT64, 1203, ""⟩]]
    rfl (by decide) (by decide) (by decide)

/-- The journal of a pass, in both modes and on any topology: the calls `GetMetrics` makes
are made in enumeration order; if one of them fails, `GetMetrics` returns no groups and
that error, the failed call is the last one made and every earlier call succeeded;
`GetMetrics` returns groups only if every call it made succeeded. The calls are read off
a run against the recording daemon, which has the same outcome and leaves the same world. -/
theorem GetMetrics_journal (dcgm : Daemon World) (c : DCGMCollector Func)
    (w : World) :
    ∃ log : List Call,
      GetMetrics dcgm.recording c (w, []) =
        ((GetMetrics dcgm c w).1, ((GetMetrics dcgm c w).2, log)) ∧
      log.map Call.request <+: enumeration c ∧
      (∀ e, (∃ call ∈ log, call.answer = Fetched.err e) →
        (GetMetrics dcgm c w).1 = Outcome.error e ∧
          ∃ pre req, log = pre ++ [⟨req, Fetched.err e⟩] ∧ allSucceeded pre) ∧
      (∀ e, (GetMetrics dcgm c w).1 = Outcome.error e →
        ∃ pre req, log = pre ++ [⟨req, Fetched.err e⟩] ∧ allSucceeded pre) ∧
      (∀ groups, (GetMetrics dcgm c w).1 = Outcome.ok groups → allSucceeded log) := by
  have key : ∃ log : List Call,
      GetMetrics dcgm.recording c (w, []) =
        ((GetMetrics dcgm c w).1, ((GetMetrics dcgm c w).2, log)) ∧
      log.map Call.request <+: enumeration c ∧ journalShape (GetMetrics dcgm c w).1 log := by
    unfold GetMetrics
    by_cases hmig : c.SysInfo.MigEnabled = true
    · simp only [hmig, if_true]
      cases hcount : GetMetrics.countLoop c.SysInfo c.SysInfo.GpuCount 0 0 with
      | none => exact ⟨[], rfl, by simp, allSucceeded_nil⟩
      | some count =>
        obtain ⟨new, hrun, hshape, hpre⟩ := mainLoop_recording dcgm c count 0
          (List.replicate count []) 0 w []
        refine ⟨new, ?_, ?_, hshape⟩
        · simpa using hrun
        · exact hpre.trans (loopRequests_prefix_enumeration c count
            (fun h => absurd hmig (by simp [h])))
    · simp only [hmig, if_false]
      obtain ⟨new, hrun, hshape, hpre⟩ := mainLoop_recording dcgm c c.SysInfo.GpuCount 0
        (List.replicate c.SysInfo.GpuCount []) 0 w []
      refine ⟨new, ?_, ?_, hshape⟩
      · simpa using hrun
      · exact hpre.trans (loopRequests_prefix_enumeration c c.SysInfo.GpuCount (fun _ => rfl))
  obtain ⟨log, hrun, hpre, hshape⟩ := key
  refine ⟨log, hrun, hpre, ?_, ?_, ?_⟩
  · rintro e ⟨call, hmem, hans⟩
    cases ho : (GetMetrics dcgm c w).1 with
    | panic =>
      rw [ho] at hshape
      obtain ⟨vals, hv⟩ := hshape call hmem
      rw [hans] at hv
      cases hv
    | ok groups =>
      rw [ho] at hshape
      obtain ⟨vals, hv⟩ := hshape call hmem
      rw [hans] at hv
      cases hv
    | error e1 =>
      rw [ho] at hshape
      obtain ⟨pre, req, hlog, hsucc⟩ := hshape
      have he : e = e1 := by
        rw [hlog] at hmem
        rcases List.mem_append.mp hmem with hm | hm
        · obtain ⟨vals, hv⟩ := hsucc call hm
          rw [hans] at hv
          cases hv
        · rw [List.mem_singleton] at hm
          rw [hm] at hans
          simp only [Fetched.err.injEq] at hans
          exact hans.symm
      subst he
      exact ⟨rfl, pre, req, hlog, hsucc⟩
  · intro e ho
    rw [ho] at hshape
    exact hshape
  · intro groups ho
    rw [ho] at hshape
    exact hshape

theorem GetMetrics_journal_sample :
    GetMetrics (sampleDaemon 12)
        (sampleCollector true 2 [sampleGpu 0 [11, 12], sampleGpu 1 [21], sampleGpu 2 []]) 0 =
      (Outcome.error ⟨"entity is lost"⟩, 2) ∧
    ∃ log : List Call,
      GetMetrics (sampleDaemon 12).recording
          (sampleCollector true 2 [sampleGpu 0 [11, 12], sampleGpu 1 [21], sampleGpu 2 []])
          (0, []) =
        ((GetMetrics (sampleDaemon 12)
            (sampleCollector true 2 [sampleGpu 0 [11, 12], sampleGpu 1 [21], sampleGpu 2 []])
            0).1,
          ((GetMetrics (sampleDaemon 12)
            (sampleCollector true 2 [sampleGpu 0 [11, 12], sampleGpu 1 [21], sampleGpu 2 []])
            0).2, log)) ∧
      log.map Call.request <+: enumeration
        (sampleCollector true 2 [sampleGpu 0 [11, 12], sampleGpu 1 [21], sampleGpu 2 []]) ∧
      (∀ e, (∃ call ∈ log, call.answer = Fetched.err e) →
        (GetMetrics (sampleDaemon 12)
            (sampleCollector true 2 [sampleGpu 0 [11, 12], sampleGpu 1 [21], sampleGpu 2 []])
            0).1 = Outcome.error e ∧
          ∃ pre req, log = pre ++ [⟨req, Fetched.err e⟩] ∧ allSucceeded pre) ∧
      (∀ e, (GetMetrics (sampleDaemon 12)
            (sampleCollector true 2 [sampleGpu 0 [11, 12], sampleGpu 1 [21], sampleGpu 2 []])
            0).1 = Outcome.error e →
        ∃ pre req, log = pre ++ [⟨req, Fetched.err e⟩] ∧ allSucceeded pre) ∧
      (∀ groups, (GetMetrics (sampleDaemon 12)
            (sampleCollector true 2 [sampleGpu 0 [11, 12], sampleGpu 1 [21], sampleGpu 2 []])
            0).1 = Outcome.ok groups → allSucceeded log) :=
  ⟨by decide, GetMetrics_journal _ _ _⟩

/-- C4 (failing input): MIG enabled, `GpuCount = 2`, GPU 0 without instances, GPU 1 with
the single instance of entity id 21, every fetch answered with values. The entity count is
1, so the main loop runs for GPU index 0 only: no fetch is issued (the world still counts
0 calls) and the single group returned is nil, although the fetch for entity 21 would have
given three values that `ToMetric` converts into three records. -/
theorem GetMetrics_mig_skips_instance :
    GetMetrics (sampleDaemon 99) (sampleCollector true 2 [sampleGpu 0 [], sampleGpu 1 [21]]) 0 =
        (Outcome.ok [[]], 0) ∧
      ((sampleDaemon 99).EntityGetLatestValues 0 Field_Entity_Group.FE_GPU_I 21
          [150, 155, 203]).1 =
        Fetched.vals [⟨DCGM_FT_INT64, 21150, ""⟩, ⟨DCGM_FT_INT64, 21155, ""⟩,
          ⟨DCGM_FT_INT64, 21203, ""⟩] ∧
      (ToMetric [⟨DCGM_FT_INT64, 21150, ""⟩, ⟨DCGM_FT_INT64, 21155, ""⟩,
          ⟨DCGM_FT_INT64, 21203, ""⟩]
        [⟨150, "DCGM_FI_DEV_GPU_TEMP"⟩, ⟨155, "DCGM_FI_DEV_POWER_USAGE"⟩,
          ⟨203, "DCGM_FI_DEV_GPU_UTIL"⟩]
        (sampleGpu 1 [21]).DeviceInfo (some ⟨⟨5⟩, "1g.5gb", 21⟩) false).map List.length =
        some 3 := by
  decide

theorem kept_append (a b : List FieldValue_v1) (i : Nat) :
    kept i (a ++ b) = kept i a ++ kept (i + a.length) b := by
  induction a generalizing i with
  | nil => simp [kept_nil]
  | cons v rest ih =>
    by_cases hv : ToString v = SkipDCGMValue
    · rw [List.cons_append, kept_cons_skip _ _ _ hv, kept_cons_skip _ _ _ hv, ih]
      simp only [List.length_cons]
      congr 2
      omega
    · rw [List.cons_append, kept_cons_keep _ _ _ hv, kept_cons_keep _ _ _ hv, ih]
      simp only [List.length_cons, List.cons_append]
      congr 3
      omega

theorem FailedToConvert_ne_SkipDCGMValue : FailedToConvert ≠ SkipDCGMValue := by decide

/-- C11 (amended): a value whose type tag is none of string, double and int64 and whose two numeric
readings match no sentinel constant is turned into the conversion-failed marker, which
differs from the skip marker. Inside any value list with no more values than counters,
`ToMetric` therefore returns, keeps the counter of that value as a record whose value is
the marker, and converts the values before and after it as it would without it (those
after it from their own index on). -/
theorem ToString_unrecognized_type (value : FieldValue_v1)
    (hstr : value.FieldType ≠ DCGM_FT_STRING) (hdbl : value.FieldType ≠ DCGM_FT_DOUBLE)
    (hint : value.FieldType ≠ DCGM_FT_INT64) (hs : ¬ matchesSentinel value) :
    ToString value = FailedToConvert ∧ FailedToConvert ≠ SkipDCGMValue ∧
      ∀ (pre post : List FieldValue_v1) (c : List Counter) (d : Device)
        (instanceInfo : Option GpuInstanceInfo) (useOld : Bool),
        (pre ++ value :: post).length ≤ c.length →
        ∃ ci msPre msPost, c.get? pre.length = some ci ∧
          ToMetric pre c d instanceInfo useOld = some msPre ∧
          ToMetric.loop c d instanceInfo useOld (pre.length + 1) post [] = some msPost ∧
          (buildMetric ci FailedToConvert d instanceInfo useOld).Value = FailedToConvert ∧
          ToMetric (pre ++ value :: post) c d instanceInfo useOld =
            some (msPre ++ buildMetric ci FailedToConvert d instanceInfo useOld :: msPost) := by
  have hconv : ToString value = FailedToConvert := by
    rw [ToString_of_not_matchesSentinel value hs, if_neg hstr, if_neg hdbl, if_neg hint]
  refine ⟨hconv, FailedToConvert_ne_SkipDCGMValue, ?_⟩
  intro pre post c d instanceInfo useOld hlen
  have hkeep : ToString value ≠ SkipDCGMValue := by
    rw [hconv]; exact FailedToConvert_ne_SkipDCGMValue
  have hall := kept_in_range (pre ++ value :: post) c hlen
  have hsplit : kept 0 (pre ++ value :: post) =
      kept 0 pre ++ (pre.length, value) :: kept (pre.length + 1) post := by
    rw [kept_append, Nat.zero_add, kept_cons_keep _ _ _ hkeep]
  rw [hsplit] at hall
  have hidx : pre.length < c.length := by
    simp only [List.length_append, List.length_cons] at hlen
    omega
  refine ⟨c.get ⟨pre.length, hidx⟩,
    (kept 0 pre).map
      (fun p => buildMetric (c.getD p.1 default) (ToString p.2) d instanceInfo useOld),
    (kept (pre.length + 1) post).map
      (fun p => buildMetric (c.getD p.1 default) (ToString p.2) d instanceInfo useOld),
    List.get?_eq_get hidx, ?_, ?_, rfl, ?_⟩
  · rw [ToMetric_eq, if_pos (fun p hp => hall p (List.mem_append_left _ hp))]
  · rw [ToMetric_loop_eq, if_pos (fun p hp =>
      hall p (List.mem_append_right _ (List.mem_cons_of_mem _ hp)))]
    rfl
  · rw [ToMetric_eq, hsplit, if_pos hall, List.map_append, List.map_cons, hconv]
    simp [List.getD, List.getElem?_eq_getElem hidx]

theorem ToString_unrecognized_type_witness :
    ToString ⟨DCGM_FT_BINARY, 7, ""⟩ = FailedToConvert ∧ FailedToConvert ≠ SkipDCGMValue ∧
      ∀ (pre post : List FieldValue_v1) (c : List Counter) (d : Device)
        (instanceInfo : Option GpuInstanceInfo) (useOld : Bool),
        (pre ++ (⟨DCGM_FT_BINARY, 7, ""⟩ : FieldValue_v1) :: post).length ≤ c.length →
        ∃ ci msPre msPost, c.get? pre.length = some ci ∧
          ToMetric pre c d instanceInfo useOld = some msPre ∧
          ToMetric.loop c d instanceInfo useOld (pre.length + 1) post [] = some msPost ∧
          (buildMetric ci FailedToConvert d instanceInfo useOld).Value = FailedToConvert ∧
          ToMetric (pre ++ (⟨DCGM_FT_BINARY, 7, ""⟩ : FieldValue_v1) :: post) c d instanceInfo
              useOld =
            some (msPre ++ buildMetric ci FailedToConvert d instanceInfo useOld :: msPost) :=
  ToString_unrecognized_type ⟨DCGM_FT_BINARY, 7, ""⟩ (by decide) (by decide) (by decide)
    (by decide)

/-- The text `Nat.repr` prints starts with a decimal digit. -/
theorem repr_head_digit (n : Nat) :
    ∃ ch rest dv, (Nat.repr n).data = ch :: rest ∧ digitValue ch = some dv := by
  obtain ⟨front, hfront, hne, hparse⟩ := toDigitsCore_spec (n + 1) n [] (Nat.lt_succ_self n)
  have hdata : (Nat.repr n).data = front := by
    simp [Nat.repr, Nat.toDigits, hfront, List.asString]
  cases front with
  | nil => exact absurd rfl hne
  | cons ch rest =>
    have h0 := hparse 0
    simp only [parseDigits] at h0
    cases hd : digitValue ch with
    | none => rw [hd] at h0; cases h0
    | some dv => exact ⟨ch, rest, dv, hdata, hd⟩

theorem SkipDCGMValue_data :
    SkipDCGMValue.data = 'S' :: "KIPPING DCGM VALUE".data := by decide

theorem repr_append_ne_skip (n : Nat) (suffix : String) :
    Nat.repr n ++ suffix ≠ SkipDCGMValue := by
  intro h
  obtain ⟨ch, rest, dv, hdata, hdv⟩ := repr_head_digit n
  have hd := congrArg String.data h
  rw [String.data_append, hdata, SkipDCGMValue_data] at hd
  simp only [List.cons_append, List.cons.injEq] at hd
  rw [hd.1] at hdv
  have hS : digitValue 'S' = none := by decide
  rw [hS] at hdv
  cases hdv

theorem minus_append_ne_skip (text : String) : "-" ++ text ≠ SkipDCGMValue := by
  intro h
  have hd := congrArg String.data h
  rw [String.data_append, SkipDCGMValue_data] at hd
  have h1 : ("-" : String).data = ['-'] := rfl
  rw [h1] at hd
  simp only [List.cons_append, List.cons.injEq] at hd
  exact absurd hd.1 (by decide)

/-- The text `%d` prints is never the skip marker. -/
theorem Sprintf_d_int64_ne_skip (i : Int) : Sprintf_d_int64 i ≠ SkipDCGMValue := by
  unfold Sprintf_d_int64
  split_ifs
  · exact minus_append_ne_skip _
  · have := repr_append_ne_skip i.natAbs ""
    simpa using this

/-- The text `%f` prints is never the skip marker. -/
theorem Sprintf_f_ne_skip (x : Float64) : Sprintf_f x ≠ SkipDCGMValue := by
  cases x with
  | nan => decide
  | inf neg => cases neg <;> decide
  | fin neg mant exp =>
    simp only [Sprintf_f]
    cases neg with
    | true =>
      simp only [if_true, String.append_assoc]
      exact minus_append_ne_skip _
    | false =>
      simp only [Bool.false_eq_true, if_false, String.empty_append, String.append_assoc]
      exact repr_append_ne_skip _ _

/-- Exactly when `ToString` gives the skip marker: a sentinel is matched, or the value is
declared a string and its text is the marker itself. -/
theorem ToString_eq_skip_iff (value : FieldValue_v1) :
    ToString value = SkipDCGMValue ↔
      matchesSentinel value ∨
        (value.FieldType = DCGM_FT_STRING ∧ value.String = SkipDCGMValue) := by
  by_cases hs : matchesSentinel value
  · simp [ToString_of_matchesSentinel value hs, hs]
  · rw [ToString_of_not_matchesSentinel value hs]
    by_cases h1 : value.FieldType = DCGM_FT_STRING
    · simp [h1, hs]
    · rw [if_neg h1]
      by_cases h2 : value.FieldType = DCGM_FT_DOUBLE
      · rw [if_pos h2]
        simp [hs, h1, Sprintf_f_ne_skip]
      · rw [if_neg h2]
        by_cases h3 : value.FieldType = DCGM_FT_INT64
        · rw [if_pos h3]
          simp [hs, h1, Sprintf_d_int64_ne_skip]
        · rw [if_neg h3]
          simp [hs, h1, FailedToConvert_ne_SkipDCGMValue]

/-- C16 (as stated) fails: a value declared as a string whose text is the skip marker
matches no sentinel constant (its leading bytes read neither as an integer code nor as a
double code), yet `ToMetric` drops its counter. -/
theorem ToMetric_drops_marker_text :
    ¬ matchesSentinel ⟨DCGM_FT_STRING, 5138124834169506643, "SKIPPING DCGM VALUE"⟩ ∧
      List.countP (fun v => decide (¬ matchesSentinel v))
        [⟨DCGM_FT_STRING, 5138124834169506643, "SKIPPING DCGM VALUE"⟩] = 1 ∧
      ToMetric [⟨DCGM_FT_STRING, 5138124834169506643, "SKIPPING DCGM VALUE"⟩]
        [⟨1, "state"⟩] ⟨0, "GPU-0"⟩ none false = some [] := by
  decide

/-- C16 (amended): with no more values than counters, `ToMetric` emits as many records as
there are values that match no sentinel constant and are not a string whose text is the
skip marker itself; a value of any declared type that matches no sentinel and is not such
a string always yields a record. -/
theorem ToMetric_drops_only_skip (values : List FieldValue_v1) (c : List Counter) (d : Device)
    (instanceInfo : Option GpuInstanceInfo) (useOld : Bool)
    (h : values.length ≤ c.length) :
    ∃ ms, ToMetric values c d instanceInfo useOld = some ms ∧
      ms.length = values.countP (fun v => decide (¬ matchesSentinel v ∧
        ¬ (v.FieldType = DCGM_FT_STRING ∧ v.String = SkipDCGMValue))) := by
  refine ⟨(kept 0 values).map
      (fun p => buildMetric (c.getD p.1 default) (ToString p.2) d instanceInfo useOld),
    ?_, ?_⟩
  · rw [ToMetric_eq, if_pos (kept_in_range values c h)]
  · rw [List.length_map, kept_length]
    congr 1
    funext v
    rw [decide_eq_decide, ne_eq, ToString_eq_skip_iff, not_or]

theorem ToMetric_drops_only_skip_witness :
    ∃ ms, ToMetric [⟨DCGM_FT_STRING, 5138124834169506643, "SKIPPING DCGM VALUE"⟩,
          ⟨DCGM_FT_BINARY, 7, ""⟩, ⟨DCGM_FT_INT64, 2147483634, ""⟩,
          ⟨DCGM_FT_DOUBLE, 4609434218613702656, ""⟩]
        [⟨1, "state"⟩, ⟨2, "blob"⟩, ⟨3, "temp"⟩, ⟨4, "power"⟩] ⟨0, "GPU-0"⟩ none false =
          some ms ∧
      ms.length = List.countP (fun v => decide (¬ matchesSentinel v ∧
          ¬ (v.FieldType = DCGM_FT_STRING ∧ v.String = SkipDCGMValue)))
        [⟨DCGM_FT_STRING, 5138124834169506643, "SKIPPING DCGM VALUE"⟩,
          ⟨DCGM_FT_BINARY, 7, ""⟩, ⟨DCGM_FT_INT64, 2147483634, ""⟩,
          ⟨DCGM_FT_DOUBLE, 4609434218613702656, ""⟩] :=
  ToMetric_drops_only_skip _ _ _ _ _ (by decide)

/-- C17 (as stated) fails: `ToString` compares the `Int64()` reading with eight pairwise
different integer codes, not four. Each of the eight, read from an int64 value whose
`Float64()` reading matches no double code, gives the skip marker; whichever four are
taken as "the integer codes", the other four trigger the marker by themselves. -/
theorem ToString_eight_integer_codes :
    ToString ⟨DCGM_FT_INT64, 2147483632, ""⟩ = SkipDCGMValue ∧
      ToString ⟨DCGM_FT_INT64, 9223372036854775792, ""⟩ = SkipDCGMValue ∧
      integerSentinels.length = 8 ∧ integerSentinels.Nodup ∧
      ∀ k ∈ integerSentinels,
        (⟨DCGM_FT_INT64, k.toNat, ""⟩ : FieldValue_v1).Int64 = k ∧
        (∀ s ∈ doubleSentinels,
          (⟨DCGM_FT_INT64, k.toNat, ""⟩ : FieldValue_v1).Float64.eq s = false) ∧
        ToString ⟨DCGM_FT_INT64, k.toNat, ""⟩ = SkipDCGMValue := by
  decide

/-- C17 (amended): the sentinel check of `ToString` consists of exactly twelve codes, eight
pairwise different integer codes compared with the `Int64()` reading and four pairwise
different double codes compared with the `Float64()` reading. Every code triggers the skip
marker whatever the other reading is, and each can be hit alone (the words listed read as
the four double codes and as no integer code); a value whose `Int64()` reading is outside
the eight integer codes and whose `Float64()` reading equals none of the four double codes
passes the check: it is converted by its type tag, and for every tag other than string the
result is not the skip marker. -/
theorem ToString_twelve_codes :
    (integerSentinels.length = 8 ∧ integerSentinels.Nodup) ∧
    (doubleSentinels.length = 4 ∧ doubleSentinels.Pairwise (fun a b => a.eq b = false)) ∧
    (∀ value : FieldValue_v1, value.Int64 ∈ integerSentinels → ToString value = SkipDCGMValue) ∧
    (∀ value : FieldValue_v1, (∃ s ∈ doubleSentinels, value.Float64.eq s = true) →
      ToString value = SkipDCGMValue) ∧
    (∀ k ∈ integerSentinels, (⟨DCGM_FT_INT64, k.toNat, ""⟩ : FieldValue_v1).Int64 = k ∧
      ∀ s ∈ doubleSentinels,
        (⟨DCGM_FT_INT64, k.toNat, ""⟩ : FieldValue_v1).Float64.eq s = false) ∧
    List.Forall₂ (fun (w : Nat) (s : Float64) =>
        (⟨DCGM_FT_DOUBLE, w, ""⟩ : FieldValue_v1).Float64.eq s = true ∧
        (⟨DCGM_FT_DOUBLE, w, ""⟩ : FieldValue_v1).Int64 ∉ integerSentinels)
      [0x42E0000000000000, 0x42E0000000000020, 0x42E0000000000040, 0x42E0000000000060]
      doubleSentinels ∧
    (∀ value : FieldValue_v1, value.Int64 ∉ integerSentinels →
      (∀ s ∈ doubleSentinels, value.Float64.eq s = false) →
      ToString value =
          (if value.FieldType = DCGM_FT_STRING then value.String
            else if value.FieldType = DCGM_FT_DOUBLE then Sprintf_f value.Float64
            else if value.FieldType = DCGM_FT_INT64 then Sprintf_d_int64 value.Int64
            else FailedToConvert) ∧
        (value.FieldType ≠ DCGM_FT_STRING → ToString value ≠ SkipDCGMValue)) := by
  refine ⟨by decide, by decide, ?_, ?_, by decide, by decide, ?_⟩
  · intro value h
    exact ToString_of_matchesSentinel value (Or.inl h)
  · intro value h
    exact ToString_of_matchesSentinel value (Or.inr h)
  · intro value hi hd
    have hs : ¬ matchesSentinel value := by
      rintro (h | ⟨s, hs, he⟩)
      · exact hi h
      · rw [hd s hs] at he
        cases he
    refine ⟨ToString_of_not_matchesSentinel value hs, ?_⟩
    intro ht hskip
    rcases (ToString_eq_skip_iff value).mp hskip with h | ⟨h, _⟩
    · exact hs h
    · exact ht h

/-! ## The entity count and the output slots -/

theorem setSlot_length (metrics : List (List Metric)) (i : Nat) (x : List Metric)
    (out : List (List Metric)) (h : setSlot metrics i x = some out) :
    out.length = metrics.length := by
  unfold setSlot at h
  split_ifs at h
  cases h
  exact List.length_set _ _ _

/-- The counting loop started below the end of the GPU list: it panics exactly when it
would run past the end, and otherwise adds up the instance counts of the GPUs it visits. -/
theorem countLoop_eq (sys : SystemInfo) :
    ∀ (todo i count : Nat), i ≤ sys.Gpus.length →
      GetMetrics.countLoop sys todo i count =
        if i + todo ≤ sys.Gpus.length then
          some (count +
            (((sys.Gpus.drop i).take todo).map (fun gpu => gpu.GpuInstances.length)).sum)
        else none := by
  intro todo
  induction todo with
  | zero => intro i count hi; simp [GetMetrics.countLoop, hi]
  | succ todo ih =>
    intro i count hi
    by_cases hlt : i < sys.Gpus.length
    · have hget : sys.Gpus.get? i = some sys.Gpus[i] := by
        rw [List.get?_eq_getElem?, List.getElem?_eq_getElem hlt]
      rw [GetMetrics.countLoop, hget]
      simp only []
      rw [ih (i + 1) _ hlt, List.drop_eq_getElem_cons hlt, List.take_succ_cons, List.map_cons,
        List.sum_cons]
      by_cases hle : i + (todo + 1) ≤ sys.Gpus.length
      · rw [if_pos hle, if_pos (by omega), Nat.add_assoc]
      · rw [if_neg hle, if_neg (by omega)]
    · have hget : sys.Gpus.get? i = none := List.get?_eq_none.mpr (by omega)
      rw [GetMetrics.countLoop, hget, if_neg (by omega)]


theorem instanceLoop_length (dcgm : Daemon World) (c : DCGMCollector Func) (deviceInfo : Device) :
    ∀ (insts : List GpuInstanceInfo) (metrics : List (List Metric)) (gpuIIndex : Nat)
      (w : World) (out : List (List Metric)) (g1 : Nat) (w1 : World),
      GetMetrics.instanceLoop dcgm c deviceInfo insts metrics gpuIIndex w =
          (Outcome.ok (out, g1), w1) →
        out.length = metrics.length := by
  intro insts
  induction insts with
  | nil =>
    intro metrics g w out g1 w1 h
    simp only [GetMetrics.instanceLoop, Prod.mk.injEq, Outcome.ok.injEq] at h
    rw [← h.1.1]
  | cons inst rest ih =>
    intro metrics g w out g1 w1 h
    rw [GetMetrics.instanceLoop] at h
    cases hcall : dcgm.EntityGetLatestValues w Field_Entity_Group.FE_GPU_I inst.EntityId
        c.DeviceFields with
    | mk answer w2 =>
      rw [hcall] at h
      cases answer with
      | err e => simp at h
      | vals vs =>
        simp only [] at h
        cases hms : ToMetric vs c.Counters deviceInfo (some inst) c.UseOldNamespace with
        | none => rw [hms] at h; simp at h
        | some ms =>
          rw [hms] at h
          simp only [] at h
          cases hset : setSlot metrics g ms with
          | none => rw [hset] at h; simp at h
          | some metrics1 =>
            rw [hset] at h
            simp only [] at h
            rw [ih metrics1 (g + 1) w2 out g1 w1 h, setSlot_length _ _ _ _ hset]

theorem mainLoop_length (dcgm : Daemon World) (c : DCGMCollector Func) :
    ∀ (todo i : Nat) (metrics : List (List Metric)) (gpuIIndex : Nat) (w : World)
      (out : List (List Metric)) (w1 : World),
      GetMetrics.mainLoop dcgm c todo i metrics gpuIIndex w = (Outcome.ok out, w1) →
        out.length = metrics.length := by
  intro todo
  induction todo with
  | zero =>
    intro i metrics g w out w1 h
    simp only [GetMetrics.mainLoop, Prod.mk.injEq, Outcome.ok.injEq] at h
    rw [← h.1]
  | succ todo ih =>
    intro i metrics g w out w1 h
    rw [GetMetrics.mainLoop] at h
    cases hgpu : c.SysInfo.Gpus.get? i with
    | none => rw [hgpu] at h; simp at h
    | some gpu =>
      rw [hgpu] at h
      simp only [] at h
      by_cases hmig : c.SysInfo.MigEnabled = false
      · rw [if_pos hmig] at h
        cases hcall : dcgm.GetLatestValuesForFields w i c.DeviceFields with
        | mk answer w2 =>
          rw [hcall] at h
          cases answer with
          | err e => simp at h
          | vals vs =>
            simp only [] at h
            cases hms : ToMetric vs c.Counters gpu.DeviceInfo none c.UseOldNamespace with
            | none => rw [hms] at h; simp at h
            | some ms =>
              rw [hms] at h
              simp only [] at h
              cases hset : setSlot metrics i ms with
              | none => rw [hset] at h; simp at h
              | some metrics1 =>
                rw [hset] at h
                simp only [] at h
                rw [ih (i + 1) metrics1 g w2 out w1 h, setSlot_length _ _ _ _ hset]
      · rw [if_neg hmig] at h
        cases hinner : GetMetrics.instanceLoop dcgm c gpu.DeviceInfo gpu.GpuInstances metrics
            g w with
        | mk o w2 =>
          rw [hinner] at h
          cases o with
          | panic => simp at h
          | error e => simp at h
          | ok r =>
            obtain ⟨metrics1, g1⟩ := r
            simp only [] at h
            rw [ih (i + 1) metrics1 g1 w2 out w1 h,
              instanceLoop_length dcgm c _ _ _ _ _ _ _ _ hinner]

/-- C12: whenever `GetMetrics` succeeds, it returns as many groups as there are monitored
entities: `GpuCount` without MIG, and with MIG the number of GPU instances over the GPUs
with index below `GpuCount`. -/
theorem GetMetrics_group_count (dcgm : Daemon World) (c : DCGMCollector Func) (w w1 : World)
    (groups : List (List Metric))
    (h : GetMetrics dcgm c w = (Outcome.ok groups, w1)) :
    groups.length =
      if c.SysInfo.MigEnabled = false then c.SysInfo.GpuCount
      else instanceTotal c.SysInfo := by
  unfold GetMetrics at h
  by_cases hmig : c.SysInfo.MigEnabled = false
  · rw [if_pos hmig]
    simp only [hmig, Bool.false_eq_true, if_false] at h
    rw [mainLoop_length dcgm c _ _ _ _ _ _ _ h, List.length_replicate]
  · rw [if_neg hmig]
    have hmig1 : c.SysInfo.MigEnabled = true := by simpa using hmig
    simp only [hmig1, if_true] at h
    rw [countLoop_eq c.SysInfo _ 0 0 (Nat.zero_le _)] at h
    split_ifs at h
    · simp only [List.drop_zero, Nat.zero_add] at h
      rw [mainLoop_length dcgm c _ _ _ _ _ _ _ h, List.length_replicate]
      rfl
    · simp at h

theorem GetMetrics_group_count_witness :
    List.length ([11, 12].map (fun e =>
        [(150, "DCGM_FI_DEV_GPU_TEMP"), (155, "DCGM_FI_DEV_POWER_USAGE"),
          (203, "DCGM_FI_DEV_GPU_UTIL")].map (fun p =>
            buildMetric ⟨p.1, p.2⟩ (Sprintf_d_uint (1000 * e + p.1)) ⟨0, "GPU-0"⟩
              (some ⟨⟨e % 8⟩, "1g.5gb", e⟩) false))) =
      if (sampleCollector true 2
          [sampleGpu 0 [11, 12], sampleGpu 1 [], sampleGpu 2 []]).SysInfo.MigEnabled = false
      then (sampleCollector true 2
          [sampleGpu 0 [11, 12], sampleGpu 1 [], sampleGpu 2 []]).SysInfo.GpuCount
      else instanceTotal (sampleCollector true 2
          [sampleGpu 0 [11, 12], sampleGpu 1 [], sampleGpu 2 []]).SysInfo :=
  GetMetrics_group_count (sampleDaemon 99)
    (sampleCollector true 2 [sampleGpu 0 [11, 12], sampleGpu 1 [], sampleGpu 2 []]) 0 2
    _ (by decide)

/-! ## A pass with MIG on which every fetch succeeds -/

theorem answers_append (dcgm : Daemon World) (a b : List Request) :
    ∀ (w : World), dcgm.answers (a ++ b) w =
      dcgm.answers a w ++ dcgm.answers b (dcgm.worldAfter a w) := by
  induction a with
  | nil => intro w; rfl
  | cons r rest ih => intro w; simp [Daemon.answers, Daemon.worldAfter, ih]

theorem worldAfter_append (dcgm : Daemon World) (a b : List Request) :
    ∀ (w : World), dcgm.worldAfter (a ++ b) w = dcgm.worldAfter b (dcgm.worldAfter a w) := by
  induction a with
  | nil => intro w; rfl
  | cons r rest ih => intro w; simp [Daemon.worldAfter, ih]

theorem answers_length (dcgm : Daemon World) (a : List Request) :
    ∀ (w : World), (dcgm.answers a w).length = a.length := by
  induction a with
  | nil => intro w; rfl
  | cons r rest ih => intro w; simp [Daemon.answers, ih]

/-- The inner loop when every fetch it makes gives values (no more than there are
counters) and the slots from the cursor on suffice: it runs to its end, advances the
cursor by the number of instances and fills the slots it passes with the conversions. -/
theorem instanceLoop_ok (dcgm : Daemon World) (c : DCGMCollector Func) (deviceInfo : Device) :
    ∀ (insts : List GpuInstanceInfo) (metrics : List (List Metric)) (g : Nat) (w : World),
      g + insts.length ≤ metrics.length →
      (∀ a ∈ dcgm.answers (insts.map (fun inst =>
          Request.entity Field_Entity_Group.FE_GPU_I inst.EntityId c.DeviceFields)) w,
        ∃ v, a = Fetched.vals v ∧ v.length ≤ c.Counters.length) →
      ∃ out, GetMetrics.instanceLoop dcgm c deviceInfo insts metrics g w =
          (Outcome.ok (out, g + insts.length), dcgm.worldAfter (insts.map (fun inst =>
            Request.entity Field_Entity_Group.FE_GPU_I inst.EntityId c.DeviceFields)) w) ∧
        out.length = metrics.length ∧
        (∀ j, j < g ∨ g + insts.length ≤ j → out.get? j = metrics.get? j) ∧
        ∀ k, k < insts.length → ∃ inst v, insts.get? k = some inst ∧
          (dcgm.answers (insts.map (fun inst =>
            Request.entity Field_Entity_Group.FE_GPU_I inst.EntityId c.DeviceFields)) w).get? k =
              some (Fetched.vals v) ∧
          out.get? (g + k) = ToMetric v c.Counters deviceInfo (some inst) c.UseOldNamespace := by
  intro insts
  induction insts with
  | nil =>
    intro metrics g w _ _
    exact ⟨metrics, rfl, rfl, fun _ _ => rfl, fun k hk => absurd hk (Nat.not_lt_zero k)⟩
  | cons inst rest ih =>
    intro metrics g w hslots hfetch
    simp only [List.map_cons, Daemon.answers, Daemon.worldAfter, Daemon.serve,
      List.length_cons] at hfetch hslots ⊢
    obtain ⟨v, hv, hvlen⟩ := hfetch _ (List.mem_cons_self _ _)
    obtain ⟨ms, hms⟩ := ToMetric_isSome_of_le v c.Counters deviceInfo (some inst)
      c.UseOldNamespace hvlen
    have hset : setSlot metrics g ms = some (metrics.set g ms) := by
      simp only [setSlot]
      rw [if_pos (by omega)]
    obtain ⟨out, hout, hlen, hkeep, hnew⟩ := ih (metrics.set g ms) (g + 1)
      (dcgm.EntityGetLatestValues w Field_Entity_Group.FE_GPU_I inst.EntityId c.DeviceFields).2
      (by rw [List.length_set]; omega)
      (fun a ha => hfetch a (List.mem_cons_of_mem _ ha))
    have hpair : dcgm.EntityGetLatestValues w Field_Entity_Group.FE_GPU_I inst.EntityId
        c.DeviceFields = (Fetched.vals v,
          (dcgm.EntityGetLatestValues w Field_Entity_Group.FE_GPU_I inst.EntityId
            c.DeviceFields).2) := by
      rw [← hv]
    refine ⟨out, ?_, ?_, ?_, ?_⟩
    · rw [GetMetrics.instanceLoop, hpair]
      simp only [hms, hset]
      rw [hout]
      congr 3
      omega
    · rw [hlen, List.length_set]
    · intro j hj
      rw [hkeep j (by omega)]
      simp only [List.get?_eq_getElem?]
      rw [List.getElem?_set_ne (by omega)]
    · intro k hk
      cases k with
      | zero =>
        refine ⟨inst, v, rfl, ?_, ?_⟩
        · simp only [List.get?, hv]
        · rw [Nat.add_zero, hkeep g (by omega), hms]
          simp only [List.get?_eq_getElem?]
          rw [List.getElem?_set_self (by omega)]
      | succ k =>
        obtain ⟨inst1, v1, h1, h2, h3⟩ := hnew k (by omega)
        refine ⟨inst1, v1, ?_, ?_, ?_⟩
        · simpa using h1
        · simpa using h2
        · rw [← h3]; congr 1; omega

theorem flatInstances_cons (gpu : GpuInfo) (rest : List GpuInfo) :
    flatInstances (gpu :: rest) =
      gpu.GpuInstances.map (fun inst => (gpu, inst)) ++ flatInstances rest := by
  simp [flatInstances]

theorem instanceRequests_append (fields : List Nat) (a b : List (GpuInfo × GpuInstanceInfo)) :
    instanceRequests fields (a ++ b) = instanceRequests fields a ++ instanceRequests fields b := by
  simp [instanceRequests]

theorem instanceRequests_own (fields : List Nat) (gpu : GpuInfo) :
    instanceRequests fields (gpu.GpuInstances.map (fun inst => (gpu, inst))) =
      gpu.GpuInstances.map (fun inst =>
        Request.entity Field_Entity_Group.FE_GPU_I inst.EntityId fields) := by
  simp [instanceRequests]

theorem instanceRequests_length (fields : List Nat) (a : List (GpuInfo × GpuInstanceInfo)) :
    (instanceRequests fields a).length = a.length := by
  simp [instanceRequests]

/-- The main loop with MIG when every fetch it makes gives values (no more than there are
counters), the GPU list covers the iterations left and the slots from the cursor on
suffice: it runs to its end and fills the slots from the cursor on with the conversions of
the instances of the GPUs it visits, in flattened order. -/
theorem mainLoop_mig_ok (dcgm : Daemon World) (c : DCGMCollector Func)
    (hmig : c.SysInfo.MigEnabled = true) :
    ∀ (todo i : Nat) (metrics : List (List Metric)) (g : Nat) (w : World),
      i + todo ≤ c.SysInfo.Gpus.length →
      g + (flatInstances ((c.SysInfo.Gpus.drop i).take todo)).length ≤ metrics.length →
      (∀ a ∈ dcgm.answers (instanceRequests c.DeviceFields
          (flatInstances ((c.SysInfo.Gpus.drop i).take todo))) w,
        ∃ v, a = Fetched.vals v ∧ v.length ≤ c.Counters.length) →
      ∃ out, GetMetrics.mainLoop dcgm c todo i metrics g w =
          (Outcome.ok out, dcgm.worldAfter (instanceRequests c.DeviceFields
            (flatInstances ((c.SysInfo.Gpus.drop i).take todo))) w) ∧
        out.length = metrics.length ∧
        (∀ j, j < g ∨ g + (flatInstances ((c.SysInfo.Gpus.drop i).take todo)).length ≤ j →
          out.get? j = metrics.get? j) ∧
        ∀ k, k < (flatInstances ((c.SysInfo.Gpus.drop i).take todo)).length →
          ∃ gpu inst v,
            (flatInstances ((c.SysInfo.Gpus.drop i).take todo)).get? k = some (gpu, inst) ∧
            (dcgm.answers (instanceRequests c.DeviceFields
              (flatInstances ((c.SysInfo.Gpus.drop i).take todo))) w).get? k =
                some (Fetched.vals v) ∧
            out.get? (g + k) =
              ToMetric v c.Counters gpu.DeviceInfo (some inst) c.UseOldNamespace := by
  intro todo
  induction todo with
  | zero =>
    intro i metrics g w _ _ _
    refine ⟨metrics, ?_, rfl, fun _ _ => rfl, ?_⟩
    · simp [GetMetrics.mainLoop, flatInstances, instanceRequests, Daemon.worldAfter]
    · intro k hk
      simp [flatInstances] at hk
  | succ todo ih =>
    intro i metrics g w hgpus hslots hfetch
    have hi : i < c.SysInfo.Gpus.length := by omega
    have hget : c.SysInfo.Gpus.get? i = some c.SysInfo.Gpus[i] := by
      rw [List.get?_eq_getElem?, List.getElem?_eq_getElem hi]
    generalize hgpu : c.SysInfo.Gpus[i] = gpu at hget
    have hvisit : (c.SysInfo.Gpus.drop i).take (todo + 1) =
        gpu :: (c.SysInfo.Gpus.drop (i + 1)).take todo := by
      rw [List.drop_eq_getElem_cons hi, hgpu, List.take_succ_cons]
    rw [hvisit, flatInstances_cons] at hslots hfetch ⊢
    rw [instanceRequests_append, instanceRequests_own] at hfetch ⊢
    rw [answers_append] at hfetch ⊢
    rw [worldAfter_append]
    rw [List.length_append, List.length_map] at hslots ⊢
    obtain ⟨out1, hrun1, hlen1, hkeep1, hnew1⟩ := instanceLoop_ok dcgm c gpu.DeviceInfo
      gpu.GpuInstances metrics g w (by omega)
      (fun a ha => hfetch a (List.mem_append_left _ ha))
    obtain ⟨out, hrun, hlen, hkeep, hnew⟩ := ih (i + 1) out1 (g + gpu.GpuInstances.length)
      (dcgm.worldAfter (gpu.GpuInstances.map (fun inst =>
        Request.entity Field_Entity_Group.FE_GPU_I inst.EntityId c.DeviceFields)) w)
      (by omega) (by rw [hlen1]; omega)
      (fun a ha => hfetch a (List.mem_append_right _ ha))
    refine ⟨out, ?_, ?_, ?_, ?_⟩
    · rw [GetMetrics.mainLoop, hget]
      simp only [hmig, Bool.true_eq_false, if_false]
      rw [hrun1]
      exact hrun
    · rw [hlen, hlen1]
    · intro j hj
      rw [hkeep j (by omega), hkeep1 j (by omega)]
    · intro k hk
      have hlenA : (dcgm.answers (gpu.GpuInstances.map (fun inst =>
          Request.entity Field_Entity_Group.FE_GPU_I inst.EntityId c.DeviceFields)) w).length =
          gpu.GpuInstances.length := by
        rw [answers_length, List.length_map]
      by_cases hk1 : k < gpu.GpuInstances.length
      · obtain ⟨inst, v, h1, h2, h3⟩ := hnew1 k hk1
        refine ⟨gpu, inst, v, ?_, ?_, ?_⟩
        · simp only [List.get?_eq_getElem?] at h1 ⊢
          rw [List.getElem?_append_left (by rw [List.length_map]; exact hk1),
            List.getElem?_map, h1]
          rfl
        · simp only [List.get?_eq_getElem?] at h2 ⊢
          rw [List.getElem?_append_left (by rw [hlenA]; exact hk1), h2]
        · rw [hkeep (g + k) (by omega), h3]
      · obtain ⟨gpu2, inst, v, h1, h2, h3⟩ := hnew (k - gpu.GpuInstances.length) (by omega)
        refine ⟨gpu2, inst, v, ?_, ?_, ?_⟩
        · simp only [List.get?_eq_getElem?] at h1 ⊢
          rw [List.getElem?_append_right (by rw [List.length_map]; omega), List.length_map, h1]
        · simp only [List.get?_eq_getElem?] at h2 ⊢
          rw [List.getElem?_append_right (by rw [hlenA]; omega), hlenA, h2]
        · rw [← h3]
          congr 1
          omega

theorem flatInstances_length (gpus : List GpuInfo) :
    (flatInstances gpus).length = (gpus.map (fun gpu => gpu.GpuInstances.length)).sum := by
  induction gpus with
  | nil => rfl
  | cons gpu rest ih => rw [flatInstances_cons, List.length_append, List.length_map, ih]; rfl

theorem flatInstances_append (a b : List GpuInfo) :
    flatInstances (a ++ b) = flatInstances a ++ flatInstances b := by
  simp [flatInstances]

theorem flatInstances_eq_nil (gpus : List GpuInfo) (h : ∀ gpu ∈ gpus, gpu.GpuInstances = []) :
    flatInstances gpus = [] := by
  induction gpus with
  | nil => rfl
  | cons gpu rest ih =>
    rw [flatInstances_cons, h gpu (List.mem_cons_self _ _),
      ih (fun x hx => h x (List.mem_cons_of_mem _ hx))]
    rfl

/-- When every GPU below `GpuCount` is listed and has at least one instance and the
entries from index `GpuCount` on have no instances, there are at least `GpuCount`
instances, and the first `instanceTotal` entries hold the same instances as the first
`GpuCount` entries. -/
theorem mig_topology_facts (sys : SystemInfo)
    (hpos : ∀ i, i < sys.GpuCount → ∃ gpu, sys.Gpus.get? i = some gpu ∧ gpu.GpuInstances ≠ [])
    (hrest : ∀ i gpu, sys.GpuCount ≤ i → sys.Gpus.get? i = some gpu → gpu.GpuInstances = []) :
    sys.GpuCount ≤ sys.Gpus.length ∧ sys.GpuCount ≤ instanceTotal sys ∧
      (flatInstances (sys.Gpus.take sys.GpuCount)).length = instanceTotal sys ∧
      flatInstances (sys.Gpus.take (instanceTotal sys)) =
        flatInstances (sys.Gpus.take sys.GpuCount) := by
  have hcount : sys.GpuCount ≤ sys.Gpus.length := by
    by_contra hlt
    obtain ⟨gpu, hgpu, _⟩ := hpos sys.Gpus.length (by omega)
    rw [List.get?_eq_none.mpr (Nat.le_refl _)] at hgpu
    cases hgpu
  have htotal : sys.GpuCount ≤ instanceTotal sys := by
    have hone : ∀ n ∈ (sys.Gpus.take sys.GpuCount).map (fun gpu => gpu.GpuInstances.length),
        1 ≤ n := by
      intro n hn
      obtain ⟨gpu, hmem, rfl⟩ := List.mem_map.mp hn
      obtain ⟨k, hk⟩ := List.mem_iff_getElem?.mp hmem
      have hklt : k < sys.GpuCount := by
        by_contra hge
        rw [List.getElem?_take_eq_none (by omega)] at hk
        cases hk
      rw [List.getElem?_take_of_lt hklt] at hk
      obtain ⟨gpu1, h1, h2⟩ := hpos k hklt
      rw [List.get?_eq_getElem?, hk] at h1
      cases h1
      exact List.length_pos.mpr h2
    have := List.length_le_sum_of_one_le _ hone
    rw [List.length_map, List.length_take, Nat.min_eq_left hcount] at this
    exact this
  refine ⟨hcount, htotal, flatInstances_length _, ?_⟩
  obtain ⟨extra, hextra⟩ : ∃ extra, instanceTotal sys = sys.GpuCount + extra :=
    ⟨instanceTotal sys - sys.GpuCount, by omega⟩
  have hnil : flatInstances ((sys.Gpus.drop sys.GpuCount).take extra) = [] := by
    apply flatInstances_eq_nil
    intro gpu hmem
    obtain ⟨k, hk⟩ := List.mem_iff_getElem?.mp (List.mem_of_mem_take hmem)
    rw [List.getElem?_drop] at hk
    exact hrest (sys.GpuCount + k) gpu (by omega) (by rw [List.get?_eq_getElem?, hk])
  rw [hextra, List.take_add, flatInstances_append, hnil, List.append_nil]

/-- The MIG pass on a topology it handles, against any daemon whose answers to the
fetches for the flattened instance list, issued in that order, are all values (each with
no more values than there are counters). -/
theorem GetMetrics_mig_ok (dcgm : Daemon World) (c : DCGMCollector Func) (w : World)
    (hmig : c.SysInfo.MigEnabled = true)
    (hpos : ∀ i, i < c.SysInfo.GpuCount →
      ∃ gpu, c.SysInfo.Gpus.get? i = some gpu ∧ gpu.GpuInstances ≠ [])
    (hlen : instanceTotal c.SysInfo ≤ c.SysInfo.Gpus.length)
    (hrest : ∀ i gpu, c.SysInfo.GpuCount ≤ i → c.SysInfo.Gpus.get? i = some gpu →
      gpu.GpuInstances = [])
    (hfetch : ∀ a ∈ dcgm.answers (instanceRequests c.DeviceFields
        (flatInstances (c.SysInfo.Gpus.take c.SysInfo.GpuCount))) w,
      ∃ v, a = Fetched.vals v ∧ v.length ≤ c.Counters.length) :
    ∃ groups, GetMetrics dcgm c w = (Outcome.ok groups, dcgm.worldAfter
          (instanceRequests c.DeviceFields
            (flatInstances (c.SysInfo.Gpus.take c.SysInfo.GpuCount))) w) ∧
      groups.length = (flatInstances (c.SysInfo.Gpus.take c.SysInfo.GpuCount)).length ∧
      ∀ k, k < (flatInstances (c.SysInfo.Gpus.take c.SysInfo.GpuCount)).length →
        ∃ gpu inst v,
          (flatInstances (c.SysInfo.Gpus.take c.SysInfo.GpuCount)).get? k = some (gpu, inst) ∧
          (dcgm.answers (instanceRequests c.DeviceFields
            (flatInstances (c.SysInfo.Gpus.take c.SysInfo.GpuCount))) w).get? k =
              some (Fetched.vals v) ∧
          groups.get? k = ToMetric v c.Counters gpu.DeviceInfo (some inst) c.UseOldNamespace := by
  obtain ⟨hcount, _, hflat, hsame⟩ := mig_topology_facts c.SysInfo hpos hrest
  have hcounted : GetMetrics.countLoop c.SysInfo c.SysInfo.GpuCount 0 0 =
      some (instanceTotal c.SysInfo) := by
    rw [countLoop_eq c.SysInfo _ 0 0 (Nat.zero_le _), if_pos (by omega), List.drop_zero,
      Nat.zero_add]
    rfl
  have hvisit : flatInstances ((c.SysInfo.Gpus.drop 0).take (instanceTotal c.SysInfo)) =
      flatInstances (c.SysInfo.Gpus.take c.SysInfo.GpuCount) := by
    rw [List.drop_zero, hsame]
  obtain ⟨out, hrun, hlenOut, _, hnew⟩ := mainLoop_mig_ok dcgm c hmig (instanceTotal c.SysInfo) 0
    (List.replicate (instanceTotal c.SysInfo) []) 0 w (by omega)
    (by rw [hvisit, hflat, List.length_replicate]; omega)
    (by rw [hvisit]; exact hfetch)
  rw [hvisit] at hrun hnew
  refine ⟨out, ?_, ?_, ?_⟩
  · simp only [GetMetrics, hmig, if_true, hcounted]
    exact hrun
  · rw [hlenOut, List.length_replicate, hflat]
  · intro k hk
    obtain ⟨gpu, inst, v, h1, h2, h3⟩ := hnew k hk
    rw [Nat.zero_add] at h3
    exact ⟨gpu, inst, v, h1, h2, h3⟩

theorem recording_serve (dcgm : Daemon World) (w : World) (log : List Call) (r : Request) :
    dcgm.recording.serve (w, log) r =
      ((dcgm.serve w r).1, ((dcgm.serve w r).2, log ++ [⟨r, (dcgm.serve w r).1⟩])) := by
  cases r <;> rfl

theorem recording_answers (dcgm : Daemon World) (reqs : List Request) :
    ∀ (w : World) (log : List Call),
      dcgm.recording.answers reqs (w, log) = dcgm.answers reqs w := by
  induction reqs with
  | nil => intro w log; rfl
  | cons r rest ih =>
    intro w log
    simp only [Daemon.answers, recording_serve, ih]

theorem recording_worldAfter (dcgm : Daemon World) (reqs : List Request) :
    ∀ (w : World) (log : List Call),
      ∃ new, dcgm.recording.worldAfter reqs (w, log) = (dcgm.worldAfter reqs w, log ++ new) ∧
        new.map Call.request = reqs := by
  induction reqs with
  | nil => intro w log; exact ⟨[], by simp [Daemon.worldAfter], rfl⟩
  | cons r rest ih =>
    intro w log
    obtain ⟨new, hnew, hreq⟩ := ih (dcgm.serve w r).2 (log ++ [⟨r, (dcgm.serve w r).1⟩])
    refine ⟨⟨r, (dcgm.serve w r).1⟩ :: new, ?_, ?_⟩
    · simp only [Daemon.worldAfter, recording_serve, hnew]
      simp
    · simp [hreq]

/-- C19 (amended): with MIG, on a topology in which every GPU below `GpuCount` has at least one
instance, the GPU list has at least as many entries as there are instances in total and
the entries from index `GpuCount` on have no instances, a pass on which every fetch
succeeds (each with no more values than there are counters) returns one group per
instance of the flattened list, group `k` being the conversion of the values fetched for
the `k`-th instance with the identity of the GPU that owns it; the calls it makes are the
fetches for the instances of the flattened list, each once, in order. -/
theorem GetMetrics_with_mig (dcgm : Daemon World) (c : DCGMCollector Func) (w : World)
    (hmig : c.SysInfo.MigEnabled = true)
    (hpos : ∀ i, i < c.SysInfo.GpuCount →
      ∃ gpu, c.SysInfo.Gpus.get? i = some gpu ∧ gpu.GpuInstances ≠ [])
    (hlen : instanceTotal c.SysInfo ≤ c.SysInfo.Gpus.length)
    (hrest : ∀ i gpu, c.SysInfo.GpuCount ≤ i → c.SysInfo.Gpus.get? i = some gpu →
      gpu.GpuInstances = [])
    (hfetch : ∀ a ∈ dcgm.answers (instanceRequests c.DeviceFields
        (flatInstances (c.SysInfo.Gpus.take c.SysInfo.GpuCount))) w,
      ∃ v, a = Fetched.vals v ∧ v.length ≤ c.Counters.length) :
    (∃ groups, GetMetrics dcgm c w = (Outcome.ok groups, dcgm.worldAfter
          (instanceRequests c.DeviceFields
            (flatInstances (c.SysInfo.Gpus.take c.SysInfo.GpuCount))) w) ∧
      groups.length = (flatInstances (c.SysInfo.Gpus.take c.SysInfo.GpuCount)).length ∧
      ∀ k, k < (flatInstances (c.SysInfo.Gpus.take c.SysInfo.GpuCount)).length →
        ∃ gpu inst v,
          (flatInstances (c.SysInfo.Gpus.take c.SysInfo.GpuCount)).get? k = some (gpu, inst) ∧
          (dcgm.answers (instanceRequests c.DeviceFields
            (flatInstances (c.SysInfo.Gpus.take c.SysInfo.GpuCount))) w).get? k =
              some (Fetched.vals v) ∧
          groups.get? k =
            ToMetric v c.Counters gpu.DeviceInfo (some inst) c.UseOldNamespace) ∧
    (GetMetrics dcgm.recording c (w, [])).2.2.map Call.request =
      instanceRequests c.DeviceFields
        (flatInstances (c.SysInfo.Gpus.take c.SysInfo.GpuCount)) := by
  refine ⟨GetMetrics_mig_ok dcgm c w hmig hpos hlen hrest hfetch, ?_⟩
  obtain ⟨groups, hrun, _, _⟩ := GetMetrics_mig_ok dcgm.recording c (w, []) hmig hpos hlen hrest
    (by rw [recording_answers]; exact hfetch)
  obtain ⟨new, hnew, hreq⟩ := recording_worldAfter dcgm (instanceRequests c.DeviceFields
    (flatInstances (c.SysInfo.Gpus.take c.SysInfo.GpuCount))) w []
  rw [hrun, hnew]
  simpa using hreq

theorem GetMetrics_with_mig_witness :
    (∃ groups, GetMetrics (sampleDaemon 99) sampleMigCollector 0 = (Outcome.ok groups, 3) ∧
      groups.length = 3 ∧
      ∀ k, k < 3 → ∃ gpu inst v,
        [(sampleGpu 0 [11, 12], (⟨⟨3⟩, "1g.5gb", 11⟩ : GpuInstanceInfo)),
          (sampleGpu 0 [11, 12], ⟨⟨4⟩, "1g.5gb", 12⟩),
          (sampleGpu 1 [21], ⟨⟨5⟩, "1g.5gb", 21⟩)].get? k = some (gpu, inst) ∧
        [Fetched.vals [⟨DCGM_FT_INT64, 11150, ""⟩, ⟨DCGM_FT_INT64, 11155, ""⟩,
            ⟨DCGM_FT_INT64, 11203, ""⟩],
          Fetched.vals [⟨DCGM_FT_INT64, 12150, ""⟩, ⟨DCGM_FT_INT64, 12155, ""⟩,
            ⟨DCGM_FT_INT64, 12203, ""⟩],
          Fetched.vals [⟨DCGM_FT_INT64, 21150, ""⟩, ⟨DCGM_FT_INT64, 21155, ""⟩,
            ⟨DCGM_FT_INT64, 21203, ""⟩]].get? k = some (Fetched.vals v) ∧
        groups.get? k = ToMetric v sampleMigCollector.Counters gpu.DeviceInfo (some inst)
          false) ∧
    (GetMetrics (sampleDaemon 99).recording sampleMigCollector (0, [])).2.2.map Call.request =
      [Request.entity Field_Entity_Group.FE_GPU_I 11 [150, 155, 203],
        Request.entity Field_Entity_Group.FE_GPU_I 12 [150, 155, 203],
        Request.entity Field_Entity_Group.FE_GPU_I 21 [150, 155, 203]] :=
  GetMetrics_with_mig (sampleDaemon 99) sampleMigCollector 0 rfl
    (fun i hi => by
      match i, hi with
      | 0, _ => exact ⟨_, rfl, by decide⟩
      | 1, _ => exact ⟨_, rfl, by decide⟩)
    (by decide)
    (fun i gpu hi h => by
      match i, hi, h with
      | 2, _, h => cases h; rfl
      | k + 3, _, h => cases h)
    (fun a ha => by
      have hanswers : (sampleDaemon 99).answers (instanceRequests sampleMigCollector.DeviceFields
          (flatInstances (sampleMigCollector.SysInfo.Gpus.take
            sampleMigCollector.SysInfo.GpuCount))) 0 =
          [Fetched.vals [⟨DCGM_FT_INT64, 11150, ""⟩, ⟨DCGM_FT_INT64, 11155, ""⟩,
              ⟨DCGM_FT_INT64, 11203, ""⟩],
            Fetched.vals [⟨DCGM_FT_INT64, 12150, ""⟩, ⟨DCGM_FT_INT64, 12155, ""⟩,
              ⟨DCGM_FT_INT64, 12203, ""⟩],
            Fetched.vals [⟨DCGM_FT_INT64, 21150, ""⟩, ⟨DCGM_FT_INT64, 21155, ""⟩,
              ⟨DCGM_FT_INT64, 21203, ""⟩]] := by decide
      rw [hanswers] at ha
      simp only [List.mem_cons, List.mem_singleton, List.not_mem_nil, or_false] at ha
      rcases ha with rfl | rfl | rfl <;> exact ⟨_, rfl, by decide⟩)

/-- C18 (failing inputs): MIG enabled and every fetch answered with values. With
`GpuCount = 1` and a GPU list of exactly one GPU that has two instances, the entity count
is 2: after both instances are fetched the main loop goes on to GPU index 1 and indexes
the GPU list out of range. With a GPU list of 16 entries, `GpuCount = 3` and seven
instances on each of the three GPUs, the entity count is 21: after the 21 fetches the main
loop walks over the 13 unused entries and then indexes entry 16, out of range. -/
theorem GetMetrics_mig_index_out_of_range :
    GetMetrics (sampleDaemon 99) (sampleCollector true 1 [sampleGpu 0 [11, 12]]) 0 =
        (Outcome.panic, 2) ∧
      ([sampleGpu 0 [1, 2, 3, 4, 5, 6, 7], sampleGpu 1 [11, 12, 13, 14, 15, 16, 17],
          sampleGpu 2 [21, 22, 23, 24, 25, 26, 27]] ++ List.replicate 13 default).length =
        16 ∧
      GetMetrics (sampleDaemon 99)
          (sampleCollector true 3
            ([sampleGpu 0 [1, 2, 3, 4, 5, 6, 7], sampleGpu 1 [11, 12, 13, 14, 15, 16, 17],
              sampleGpu 2 [21, 22, 23, 24, 25, 26, 27]] ++ List.replicate 13 default)) 0 =
        (Outcome.panic, 21) := by
  decide

/-! ## Claims on construction and teardown -/

theorem Cleanup_loop_journaled {World : Type} (handles : List (World → World)) :
    ∀ (start : Nat) (w : World) (log : List Nat),
      Cleanup.loop ((handles.enumFrom start).map
          (fun p => fun (s : World × List Nat) => (p.2 s.1, s.2 ++ [p.1]))) (w, log) =
        (Cleanup.loop handles w, log ++ List.range' start handles.length) := by
  induction handles with
  | nil => intro start w log; simp [Cleanup.loop]
  | cons h rest ih =>
    intro start w log
    simp only [List.enumFrom, List.map_cons, Cleanup.loop, ih, List.length_cons,
      List.range'_succ, List.append_assoc, List.singleton_append]

theorem Cleanup_loop_eq_foldl {World : Type} (handles : List (World → World)) :
    ∀ (w : World), Cleanup.loop handles w = handles.foldl (fun s h => h s) w := by
  induction handles with
  | nil => intro w; rfl
  | cons h rest ih => intro w; simp [Cleanup.loop, ih]

/-- C13: one call of `Cleanup` calls the handles of `c.Cleanups` one after another in list
order, each on the world the previous one left; run on journaling handles it calls the
handles at the positions `0, 1, ..., n - 1`, each exactly once and in that order, and
nothing else; with an empty handle list it leaves the world as it is. -/
theorem Cleanup_calls_each_handle_once {World : Type} (c : DCGMCollector (World → World))
    (w : World) :
    Cleanup { c with Cleanups := journaled c.Cleanups } (w, []) =
        (Cleanup c w, List.range c.Cleanups.length) ∧
      Cleanup c w = c.Cleanups.foldl (fun s handle => handle s) w ∧
      Cleanup { c with Cleanups := [] } w = w := by
  refine ⟨?_, Cleanup_loop_eq_foldl _ w, rfl⟩
  simp only [Cleanup, journaled, List.enum]
  rw [Cleanup_loop_journaled, List.nil_append, List.range_eq_range']

theorem Cleanup_calls_each_handle_once_witness :
    Cleanup { sampleHolder [fun s => s + 1, fun s => s * 2] with
        Cleanups := journaled [fun s => s + 1, fun s => s * 2] } (3, []) = (8, [0, 1]) ∧
      Cleanup (sampleHolder [fun s => s + 1, fun s => s * 2]) 3 = 8 ∧
      Cleanup { sampleHolder [fun s => s + 1, fun s => s * 2] with Cleanups := [] } 3 = 3 :=
  Cleanup_calls_each_handle_once (sampleHolder [fun s => s + 1, fun s => s * 2]) 3

/-- A handle that commutes with every handle of a list commutes with the loop over it. -/
theorem Cleanup_loop_comm {World : Type} (h : World → World) (handles : List (World → World))
    (hcomm : ∀ g ∈ handles, ∀ s, h (g s) = g (h s)) :
    ∀ (w : World), h (Cleanup.loop handles w) = Cleanup.loop handles (h w) := by
  induction handles with
  | nil => intro w; rfl
  | cons g rest ih =>
    intro w
    simp only [Cleanup.loop]
    rw [ih (fun f hf => hcomm f (List.mem_cons_of_mem _ hf)),
      hcomm g (List.mem_cons_self _ _)]

theorem Cleanup_loop_idempotent {World : Type} (handles : List (World → World))
    (hidem : ∀ h ∈ handles, ∀ s, h (h s) = h s)
    (hcomm : ∀ h ∈ handles, ∀ g ∈ handles, ∀ s, h (g s) = g (h s)) :
    ∀ (w : World), Cleanup.loop handles (Cleanup.loop handles w) = Cleanup.loop handles w := by
  induction handles with
  | nil => intro w; rfl
  | cons h rest ih =>
    intro w
    simp only [Cleanup.loop]
    rw [Cleanup_loop_comm h rest
        (fun g hg => hcomm h (List.mem_cons_self _ _) g (List.mem_cons_of_mem _ hg)),
      hidem h (List.mem_cons_self _ _),
      ih (fun f hf => hidem f (List.mem_cons_of_mem _ hf))
        (fun f hf g hg => hcomm f (List.mem_cons_of_mem _ hf) g (List.mem_cons_of_mem _ hg))]

/-- C14 (as stated) fails: both sample handles are idempotent, yet from state 0 one call of
`Cleanup` leaves state 2 and a second call leaves state 1. -/
theorem Cleanup_twice_differs :
    (∀ h ∈ sampleHandles, ∀ s, h (h s) = h s) ∧
      Cleanup (sampleHolder sampleHandles) 0 = 2 ∧
      Cleanup (sampleHolder sampleHandles) (Cleanup (sampleHolder sampleHandles) 0) = 1 := by
  decide

/-- C14 (amended): when every handle is idempotent and any two handles commute, calling
`Cleanup` twice leaves the same world as calling it once, and so does calling twice the
teardown closure `NewDCGMCollector` returns together with a collector. -/
theorem Cleanup_idempotent {World : Type} (c : DCGMCollector (World → World))
    (hidem : ∀ h ∈ c.Cleanups, ∀ s, h (h s) = h s)
    (hcomm : ∀ h ∈ c.Cleanups, ∀ g ∈ c.Cleanups, ∀ s, h (g s) = g (h s)) :
    (∀ w, Cleanup c (Cleanup c w) = Cleanup c w) ∧
      ∀ (pkg : Bindings World) (counters : List Counter) (useOldNamespace : Bool)
        (w0 w1 : World) (built : Constructed World),
        NewDCGMCollector pkg counters useOldNamespace w0 = (built, w1) →
        built.collector = some c →
        ∀ w, built.teardown (built.teardown w) = built.teardown w := by
  have hloop := Cleanup_loop_idempotent c.Cleanups hidem hcomm
  refine ⟨hloop, ?_⟩
  intro pkg counters flag w0 w1 built hbuilt hcoll w
  unfold NewDCGMCollector at hbuilt
  cases hinit : pkg.InitializeSystemInfo w0 with
  | mk r wa =>
    rw [hinit] at hbuilt
    cases r with
    | error e =>
      simp only [Prod.mk.injEq] at hbuilt
      rw [← hbuilt.1] at hcoll
      cases hcoll
    | ok sysInfo =>
      simp only [] at hbuilt
      cases hwatch : pkg.SetupDcgmFieldsWatch wa (pkg.NewDeviceFields counters) sysInfo with
      | mk r2 wb =>
        rw [hwatch] at hbuilt
        cases r2 with
        | error e =>
          simp only [Prod.mk.injEq] at hbuilt
          rw [← hbuilt.1] at hcoll
          cases hcoll
        | ok cleanups =>
          simp only [Prod.mk.injEq] at hbuilt
          rw [← hbuilt.1] at hcoll ⊢
          simp only [Option.some.injEq] at hcoll
          rw [hcoll]
          exact hloop w

theorem Cleanup_idempotent_witness :
    (∀ w, Cleanup (sampleHolder [fun s : Nat × Nat => (0, s.2), fun s => (s.1, 0)])
        (Cleanup (sampleHolder [fun s : Nat × Nat => (0, s.2), fun s => (s.1, 0)]) w) =
      Cleanup (sampleHolder [fun s : Nat × Nat => (0, s.2), fun s => (s.1, 0)]) w) ∧
      ∀ (pkg : Bindings (Nat × Nat)) (counters : List Counter) (useOldNamespace : Bool)
        (w0 w1 : Nat × Nat) (built : Constructed (Nat × Nat)),
        NewDCGMCollector pkg counters useOldNamespace w0 = (built, w1) →
        built.collector =
          some (sampleHolder [fun s : Nat × Nat => (0, s.2), fun s => (s.1, 0)]) →
        ∀ w, built.teardown (built.teardown w) = built.teardown w :=
  Cleanup_idempotent (sampleHolder [fun s : Nat × Nat => (0, s.2), fun s => (s.1, 0)])
    (by
      intro h hh s
      simp only [sampleHolder, List.mem_cons, List.mem_singleton, List.not_mem_nil,
        or_false] at hh
      rcases hh with rfl | rfl <;> rfl)
    (by
      intro h hh g hg s
      simp only [sampleHolder, List.mem_cons, List.mem_singleton, List.not_mem_nil,
        or_false] at hh hg
      rcases hh with rfl | rfl <;> rcases hg with rfl | rfl <;> rfl)

/-- C15: if topology discovery fails, `NewDCGMCollector` returns no collector, that error
and a teardown closure that does nothing, on the world discovery left (no registration is
attempted); if discovery succeeds and the watch registration fails, it returns no
collector, that error and a teardown closure that does nothing; if both succeed it returns
no error and the collector made of the given counters, the fields derived from them, the
handles of the registration, the given flag and the discovered topology, with the teardown
closure that runs `Cleanup` on it. -/
theorem NewDCGMCollector_outcomes {World : Type} (pkg : Bindings World) (c : List Counter)
    (useOldNamespace : Bool) (w : World) :
    (∀ err w1, pkg.InitializeSystemInfo w = (Except.error err, w1) →
      NewDCGMCollector pkg c useOldNamespace w = (⟨none, fun s => s, some err⟩, w1)) ∧
    (∀ sysInfo w1 err w2, pkg.InitializeSystemInfo w = (Except.ok sysInfo, w1) →
      pkg.SetupDcgmFieldsWatch w1 (pkg.NewDeviceFields c) sysInfo = (Except.error err, w2) →
      NewDCGMCollector pkg c useOldNamespace w = (⟨none, fun s => s, some err⟩, w2)) ∧
    (∀ sysInfo w1 cleanups w2, pkg.InitializeSystemInfo w = (Except.ok sysInfo, w1) →
      pkg.SetupDcgmFieldsWatch w1 (pkg.NewDeviceFields c) sysInfo = (Except.ok cleanups, w2) →
      NewDCGMCollector pkg c useOldNamespace w =
        (⟨some ⟨c, pkg.NewDeviceFields c, cleanups, useOldNamespace, sysInfo⟩,
          fun s => Cleanup ⟨c, pkg.NewDeviceFields c, cleanups, useOldNamespace, sysInfo⟩ s,
          none⟩, w2)) := by
  refine ⟨?_, ?_, ?_⟩
  · intro err w1 hinit
    simp only [NewDCGMCollector, hinit]
  · intro sysInfo w1 err w2 hinit hwatch
    simp only [NewDCGMCollector, hinit, hwatch]
  · intro sysInfo w1 cleanups w2 hinit hwatch
    simp only [NewDCGMCollector, hinit, hwatch]

theorem NewDCGMCollector_outcomes_witness :
    NewDCGMCollector (sampleBindings true false) [⟨150, "DCGM_FI_DEV_GPU_TEMP"⟩] false 0 =
        (⟨none, fun s => s, some ⟨"no devices"⟩⟩, 1) ∧
      NewDCGMCollector (sampleBindings false true) [⟨150, "DCGM_FI_DEV_GPU_TEMP"⟩] false 0 =
        (⟨none, fun s => s, some ⟨"watch refused"⟩⟩, 11) ∧
      NewDCGMCollector (sampleBindings false false) [⟨150, "DCGM_FI_DEV_GPU_TEMP"⟩] true 0 =
        (⟨some ⟨[⟨150, "DCGM_FI_DEV_GPU_TEMP"⟩], [150], [fun s => s + 150], true,
            ⟨1, [sampleGpu 0 []], false⟩⟩,
          fun s => Cleanup ⟨[⟨150, "DCGM_FI_DEV_GPU_TEMP"⟩], [150], [fun s => s + 150], true,
            ⟨1, [sampleGpu 0 []], false⟩⟩ s,
          none⟩, 11) :=
  ⟨(NewDCGMCollector_outcomes (sampleBindings true false) [⟨150, "DCGM_FI_DEV_GPU_TEMP"⟩]
      false 0).1 ⟨"no devices"⟩ 1 rfl,
    (NewDCGMCollector_outcomes (sampleBindings false true) [⟨150, "DCGM_FI_DEV_GPU_TEMP"⟩]
      false 0).2.1 ⟨1, [sampleGpu 0 []], false⟩ 1 ⟨"watch refused"⟩ 11 rfl rfl,
    (NewDCGMCollector_outcomes (sampleBindings false false) [⟨150, "DCGM_FI_DEV_GPU_TEMP"⟩]
      true 0).2.2 ⟨1, [sampleGpu 0 []], false⟩ 1 [fun s => s + 150] 11 rfl rfl⟩

/-! ## A pass on which a fetch fails -/


/-- The inner loop when the fetches for the first `k` instances give values (no more than
there are counters) and the fetch for instance `k` fails: it returns that error on the
world the failed fetch left. -/
theorem instanceLoop_fail (dcgm : Daemon World) (c : DCGMCollector Func) (deviceInfo : Device)
    (e : Error) :
    ∀ (insts : List GpuInstanceInfo) (metrics : List (List Metric)) (g : Nat) (w : World)
      (k : Nat) (r : Request),
      g + insts.length ≤ metrics.length →
      (insts.map (fun inst =>
        Request.entity Field_Entity_Group.FE_GPU_I inst.EntityId c.DeviceFields)).get? k =
          some r →
      (∀ a ∈ dcgm.answers ((insts.map (fun inst =>
          Request.entity Field_Entity_Group.FE_GPU_I inst.EntityId c.DeviceFields)).take k) w,
        ∃ v, a = Fetched.vals v ∧ v.length ≤ c.Counters.length) →
      (dcgm.serve (dcgm.worldAfter ((insts.map (fun inst =>
          Request.entity Field_Entity_Group.FE_GPU_I inst.EntityId c.DeviceFields)).take k) w)
        r).1 = Fetched.err e →
      GetMetrics.instanceLoop dcgm c deviceInfo insts metrics g w =
        (Outcome.error e, (dcgm.serve (dcgm.worldAfter ((insts.map (fun inst =>
          Request.entity Field_Entity_Group.FE_GPU_I inst.EntityId c.DeviceFields)).take k) w)
          r).2) := by
  intro insts
  induction insts with
  | nil =>
    intro metrics g w k r _ hr
    simp at hr
  | cons inst rest ih =>
    intro metrics g w k r hslots hr hbefore hfail
    cases k with
    | zero =>
      simp only [List.map_cons, List.get?, Option.some.injEq] at hr
      subst hr
      simp only [List.take_zero, Daemon.worldAfter, Daemon.serve] at hfail ⊢
      have hpair : dcgm.EntityGetLatestValues w Field_Entity_Group.FE_GPU_I inst.EntityId
          c.DeviceFields = (Fetched.err e,
            (dcgm.EntityGetLatestValues w Field_Entity_Group.FE_GPU_I inst.EntityId
              c.DeviceFields).2) := by
        rw [← hfail]
      rw [GetMetrics.instanceLoop, hpair]
    | succ k =>
      simp only [List.map_cons, List.get?, List.take_succ_cons, Daemon.answers,
        Daemon.worldAfter, Daemon.serve, List.length_cons] at hr hbefore hfail hslots ⊢
      obtain ⟨v, hv, hvlen⟩ := hbefore _ (List.mem_cons_self _ _)
      obtain ⟨ms, hms⟩ := ToMetric_isSome_of_le v c.Counters deviceInfo (some inst)
        c.UseOldNamespace hvlen
      have hset : setSlot metrics g ms = some (metrics.set g ms) := by
        simp only [setSlot]
        rw [if_pos (by omega)]
      have hpair : dcgm.EntityGetLatestValues w Field_Entity_Group.FE_GPU_I inst.EntityId
          c.DeviceFields = (Fetched.vals v,
            (dcgm.EntityGetLatestValues w Field_Entity_Group.FE_GPU_I inst.EntityId
              c.DeviceFields).2) := by
        rw [← hv]
      rw [GetMetrics.instanceLoop, hpair]
      simp only [hms, hset]
      exact ih (metrics.set g ms) (g + 1) _ k r (by rw [List.length_set]; omega) hr
        (fun a ha => hbefore a (List.mem_cons_of_mem _ ha)) hfail

/-- The main loop without MIG when the fetches for the first `k` GPUs it visits give
values (no more than there are counters) and the fetch for the next GPU fails. -/
theorem mainLoop_nonMig_fail (dcgm : Daemon World) (c : DCGMCollector Func)
    (hmig : c.SysInfo.MigEnabled = false) (e : Error) :
    ∀ (todo i : Nat) (metrics : List (List Metric)) (g : Nat) (w : World) (k : Nat)
      (r : Request),
      i + todo ≤ c.SysInfo.Gpus.length → i + todo ≤ metrics.length →
      ((List.range' i todo).map (fun j => Request.gpu j c.DeviceFields)).get? k = some r →
      (∀ a ∈ dcgm.answers
          (((List.range' i todo).map (fun j => Request.gpu j c.DeviceFields)).take k) w,
        ∃ v, a = Fetched.vals v ∧ v.length ≤ c.Counters.length) →
      (dcgm.serve (dcgm.worldAfter
          (((List.range' i todo).map (fun j => Request.gpu j c.DeviceFields)).take k) w)
        r).1 = Fetched.err e →
      GetMetrics.mainLoop dcgm c todo i metrics g w =
        (Outcome.error e, (dcgm.serve (dcgm.worldAfter
          (((List.range' i todo).map (fun j => Request.gpu j c.DeviceFields)).take k) w)
          r).2) := by
  intro todo
  induction todo with
  | zero =>
    intro i metrics g w k r _ _ hr
    simp at hr
  | succ todo ih =>
    intro i metrics g w k r hgpus hslots hr hbefore hfail
    have hi : i < c.SysInfo.Gpus.length := by omega
    obtain ⟨gpu, hgpu⟩ : ∃ gpu, c.SysInfo.Gpus.get? i = some gpu :=
      ⟨_, List.get?_eq_get hi⟩
    cases k with
    | zero =>
      simp only [List.range'_succ, List.map_cons, List.get?, Option.some.injEq] at hr
      subst hr
      simp only [List.take_zero, Daemon.worldAfter, Daemon.serve] at hfail ⊢
      have hpair : dcgm.GetLatestValuesForFields w i c.DeviceFields = (Fetched.err e,
          (dcgm.GetLatestValuesForFields w i c.DeviceFields).2) := by
        rw [← hfail]
      rw [GetMetrics.mainLoop, hgpu]
      simp only [hmig, if_true]
      rw [hpair]
    | succ k =>
      simp only [List.range'_succ, List.map_cons, List.get?, List.take_succ_cons,
        Daemon.answers, Daemon.worldAfter, Daemon.serve] at hr hbefore hfail ⊢
      obtain ⟨v, hv, hvlen⟩ := hbefore _ (List.mem_cons_self _ _)
      obtain ⟨ms, hms⟩ := ToMetric_isSome_of_le v c.Counters gpu.DeviceInfo none
        c.UseOldNamespace hvlen
      have hset : setSlot metrics i ms = some (metrics.set i ms) := by
        simp only [setSlot]
        rw [if_pos (by omega)]
      have hpair : dcgm.GetLatestValuesForFields w i c.DeviceFields = (Fetched.vals v,
          (dcgm.GetLatestValuesForFields w i c.DeviceFields).2) := by
        rw [← hv]
      rw [GetMetrics.mainLoop, hgpu]
      simp only [hmig, if_true]
      rw [hpair]
      simp only [hms, hset]
      exact ih (i + 1) (metrics.set i ms) g _ k r (by omega)
        (by rw [List.length_set]; omega) hr
        (fun a ha => hbefore a (List.mem_cons_of_mem _ ha)) hfail

/-- The main loop with MIG when the fetches for the first `k` instances it visits give
values (no more than there are counters) and the fetch for the next instance fails. -/
theorem mainLoop_mig_fail (dcgm : Daemon World) (c : DCGMCollector Func)
    (hmig : c.SysInfo.MigEnabled = true) (e : Error) :
    ∀ (todo i : Nat) (metrics : List (List Metric)) (g : Nat) (w : World) (k : Nat)
      (r : Request),
      i + todo ≤ c.SysInfo.Gpus.length →
      g + (flatInstances ((c.SysInfo.Gpus.drop i).take todo)).length ≤ metrics.length →
      (instanceRequests c.DeviceFields
        (flatInstances ((c.SysInfo.Gpus.drop i).take todo))).get? k = some r →
      (∀ a ∈ dcgm.answers ((instanceRequests c.DeviceFields
          (flatInstances ((c.SysInfo.Gpus.drop i).take todo))).take k) w,
        ∃ v, a = Fetched.vals v ∧ v.length ≤ c.Counters.length) →
      (dcgm.serve (dcgm.worldAfter ((instanceRequests c.DeviceFields
          (flatInstances ((c.SysInfo.Gpus.drop i).take todo))).take k) w) r).1 =
        Fetched.err e →
      GetMetrics.mainLoop dcgm c todo i metrics g w =
        (Outcome.error e, (dcgm.serve (dcgm.worldAfter ((instanceRequests c.DeviceFields
          (flatInstances ((c.SysInfo.Gpus.drop i).take todo))).take k) w) r).2) := by
  intro todo
  induction todo with
  | zero =>
    intro i metrics g w k r _ _ hr
    simp [flatInstances, instanceRequests] at hr
  | succ todo ih =>
    intro i metrics g w k r hgpus hslots hr hbefore hfail
    have hi : i < c.SysInfo.Gpus.length := by omega
    have hget : c.SysInfo.Gpus.get? i = some c.SysInfo.Gpus[i] := by
      rw [List.get?_eq_getElem?, List.getElem?_eq_getElem hi]
    generalize hgpu : c.SysInfo.Gpus[i] = gpu at hget
    have hvisit : (c.SysInfo.Gpus.drop i).take (todo + 1) =
        gpu :: (c.SysInfo.Gpus.drop (i + 1)).take todo := by
      rw [List.drop_eq_getElem_cons hi, hgpu, List.take_succ_cons]
    rw [hvisit, flatInstances_cons] at hslots hr hbefore hfail ⊢
    rw [instanceRequests_append, instanceRequests_own] at hr hbefore hfail ⊢
    rw [List.length_append, List.length_map] at hslots
    have hn : (gpu.GpuInstances.map (fun inst =>
        Request.entity Field_Entity_Group.FE_GPU_I inst.EntityId c.DeviceFields)).length =
        gpu.GpuInstances.length := List.length_map _ _
    rw [GetMetrics.mainLoop, hget]
    simp only [hmig, Bool.true_eq_false, if_false]
    by_cases hk : k < gpu.GpuInstances.length
    · have htake : ∀ (b : List Request),
          ((gpu.GpuInstances.map (fun inst =>
            Request.entity Field_Entity_Group.FE_GPU_I inst.EntityId c.DeviceFields)) ++
              b).take k =
          (gpu.GpuInstances.map (fun inst =>
            Request.entity Field_Entity_Group.FE_GPU_I inst.EntityId c.DeviceFields)).take
              k := by
        intro b
        rw [List.take_append_of_le_length (by rw [hn]; omega)]
      rw [htake] at hbefore hfail ⊢
      simp only [List.get?_eq_getElem?] at hr
      rw [List.getElem?_append_left (by rw [hn]; exact hk)] at hr
      rw [instanceLoop_fail dcgm c gpu.DeviceInfo e gpu.GpuInstances metrics g w k r
        (by omega) (by rw [List.get?_eq_getElem?]; exact hr) hbefore hfail]
    · have hsplit : ∀ (b : List Request),
          ((gpu.GpuInstances.map (fun inst =>
            Request.entity Field_Entity_Group.FE_GPU_I inst.EntityId c.DeviceFields)) ++
              b).take k =
          (gpu.GpuInstances.map (fun inst =>
            Request.entity Field_Entity_Group.FE_GPU_I inst.EntityId c.DeviceFields)) ++
            b.take (k - gpu.GpuInstances.length) := by
        intro b
        rw [List.take_append_eq_append_take, hn, List.take_of_length_le (by rw [hn]; omega)]
      rw [hsplit] at hbefore hfail ⊢
      rw [answers_append] at hbefore
      rw [worldAfter_append] at hfail ⊢
      simp only [List.get?_eq_getElem?] at hr
      rw [List.getElem?_append_right (by rw [hn]; omega), hn] at hr
      obtain ⟨out1, hrun1, hlen1, _, _⟩ := instanceLoop_ok dcgm c gpu.DeviceInfo
        gpu.GpuInstances metrics g w (by omega)
        (fun a ha => hbefore a (List.mem_append_left _ ha))
      rw [hrun1]
      exact ih (i + 1) out1 (g + gpu.GpuInstances.length) _ (k - gpu.GpuInstances.length) r
        (by omega) (by rw [hlen1]; omega) (by rw [List.get?_eq_getElem?]; exact hr)
        (fun a ha => hbefore a (List.mem_append_right _ ha)) hfail

theorem answers_take (dcgm : Daemon World) (reqs : List Request) :
    ∀ (k : Nat) (w : World), dcgm.answers (reqs.take k) w = (dcgm.answers reqs w).take k := by
  induction reqs with
  | nil => intro k w; simp [Daemon.answers]
  | cons r rest ih =>
    intro k w
    cases k with
    | zero => simp [Daemon.answers]
    | succ k => simp [Daemon.answers, ih]

/-- If some answer to a list of requests issued in order is not a list of values, there is
a first request that fails, after requests that were all answered with values. -/
theorem first_failure (dcgm : Daemon World) (reqs : List Request) :
    ∀ (w : World), (¬ ∀ a ∈ dcgm.answers reqs w, ∃ v, a = Fetched.vals v) →
      ∃ k r e, reqs.get? k = some r ∧
        (∀ a ∈ dcgm.answers (reqs.take k) w, ∃ v, a = Fetched.vals v) ∧
        (dcgm.serve (dcgm.worldAfter (reqs.take k) w) r).1 = Fetched.err e := by
  induction reqs with
  | nil =>
    intro w h
    exact absurd (fun a ha => by simp [Daemon.answers] at ha) h
  | cons r rest ih =>
    intro w h
    cases hfirst : (dcgm.serve w r).1 with
    | err e =>
      exact ⟨0, r, e, rfl, fun a ha => by simp [Daemon.answers] at ha, hfirst⟩
    | vals v =>
      have hrest : ¬ ∀ a ∈ dcgm.answers rest (dcgm.serve w r).2, ∃ v, a = Fetched.vals v := by
        intro hall
        apply h
        intro a ha
        simp only [Daemon.answers, List.mem_cons] at ha
        rcases ha with rfl | ha
        · exact ⟨v, hfirst⟩
        · exact hall a ha
      obtain ⟨k, r1, e, hr1, hbefore, hfail⟩ := ih (dcgm.serve w r).2 hrest
      refine ⟨k + 1, r1, e, hr1, ?_, ?_⟩
      · intro a ha
        simp only [List.take_succ_cons, Daemon.answers, List.mem_cons] at ha
        rcases ha with rfl | ha
        · exact ⟨v, hfirst⟩
        · exact hbefore a ha
      · simpa [Daemon.worldAfter] using hfail

/-- A pass on a topology it handles, when the fetches for the first `k` entities in
enumeration order give values (no more than there are counters) and the fetch for entity
`k` fails. -/
theorem GetMetrics_fail (dcgm : Daemon World) (c : DCGMCollector Func) (w : World)
    (hnon : c.SysInfo.MigEnabled = false → c.SysInfo.GpuCount ≤ c.SysInfo.Gpus.length)
    (hmig : c.SysInfo.MigEnabled = true →
      (∀ i, i < c.SysInfo.GpuCount →
        ∃ gpu, c.SysInfo.Gpus.get? i = some gpu ∧ gpu.GpuInstances ≠ []) ∧
      instanceTotal c.SysInfo ≤ c.SysInfo.Gpus.length ∧
      (∀ i gpu, c.SysInfo.GpuCount ≤ i → c.SysInfo.Gpus.get? i = some gpu →
        gpu.GpuInstances = []))
    (k : Nat) (r : Request) (e : Error)
    (hr : (entityRequests c).get? k = some r)
    (hbefore : ∀ a ∈ dcgm.answers ((entityRequests c).take k) w,
      ∃ v, a = Fetched.vals v ∧ v.length ≤ c.Counters.length)
    (hfail : (dcgm.serve (dcgm.worldAfter ((entityRequests c).take k) w) r).1 =
      Fetched.err e) :
    GetMetrics dcgm c w =
      (Outcome.error e, (dcgm.serve (dcgm.worldAfter ((entityRequests c).take k) w) r).2) := by
  by_cases hm : c.SysInfo.MigEnabled = false
  · have hreq : entityRequests c =
        (List.range' 0 c.SysInfo.GpuCount).map (fun j => Request.gpu j c.DeviceFields) := by
      rw [entityRequests, if_pos hm, List.range_eq_range']
    rw [hreq] at hr hbefore hfail ⊢
    simp only [GetMetrics, hm, Bool.false_eq_true, if_false]
    exact mainLoop_nonMig_fail dcgm c hm e c.SysInfo.GpuCount 0
      (List.replicate c.SysInfo.GpuCount []) 0 w k r (by have := hnon hm; omega) (by simp)
      hr hbefore hfail
  · have hm1 : c.SysInfo.MigEnabled = true := by simpa using hm
    obtain ⟨hpos, hlen, hrest⟩ := hmig hm1
    obtain ⟨hcount, _, hflat, hsame⟩ := mig_topology_facts c.SysInfo hpos hrest
    have hcounted : GetMetrics.countLoop c.SysInfo c.SysInfo.GpuCount 0 0 =
        some (instanceTotal c.SysInfo) := by
      rw [countLoop_eq c.SysInfo _ 0 0 (Nat.zero_le _), if_pos (by omega), List.drop_zero,
        Nat.zero_add]
      rfl
    have hvisit : flatInstances ((c.SysInfo.Gpus.drop 0).take (instanceTotal c.SysInfo)) =
        flatInstances (c.SysInfo.Gpus.take c.SysInfo.GpuCount) := by
      rw [List.drop_zero, hsame]
    have hreq : entityRequests c = instanceRequests c.DeviceFields
        (flatInstances ((c.SysInfo.Gpus.drop 0).take (instanceTotal c.SysInfo))) := by
      rw [entityRequests, if_neg hm, hvisit]
    rw [hreq] at hr hbefore hfail ⊢
    simp only [GetMetrics, hm1, if_true, hcounted]
    exact mainLoop_mig_fail dcgm c hm1 e (instanceTotal c.SysInfo) 0
      (List.replicate (instanceTotal c.SysInfo) []) 0 w k r (by omega)
      (by rw [hvisit, hflat, List.length_replicate]; omega) hr hbefore hfail

/-- C6 (amended): without MIG on a GPU list with at least `GpuCount` entries, and with
MIG on a topology in which every GPU below `GpuCount` has at least one instance, the GPU
list has at least as many entries as there are instances and the entries from index
`GpuCount` on have no instances: if the fetches for the first `k` entities in enumeration
order give values (each with no more values than there are counters) and the fetch for
entity `k` fails, `GetMetrics` returns no groups and that error, on the world the failed
fetch left; and when no fetch gives more values than there are counters, `GetMetrics`
returns groups only if the fetch for every entity succeeded. -/
theorem GetMetrics_aborts_on_fetch_failure (dcgm : Daemon World) (c : DCGMCollector Func)
    (w : World)
    (hnon : c.SysInfo.MigEnabled = false → c.SysInfo.GpuCount ≤ c.SysInfo.Gpus.length)
    (hmig : c.SysInfo.MigEnabled = true →
      (∀ i, i < c.SysInfo.GpuCount →
        ∃ gpu, c.SysInfo.Gpus.get? i = some gpu ∧ gpu.GpuInstances ≠ []) ∧
      instanceTotal c.SysInfo ≤ c.SysInfo.Gpus.length ∧
      (∀ i gpu, c.SysInfo.GpuCount ≤ i → c.SysInfo.Gpus.get? i = some gpu →
        gpu.GpuInstances = [])) :
    (∀ (k : Nat) (r : Request) (e : Error), (entityRequests c).get? k = some r →
      (∀ a ∈ dcgm.answers ((entityRequests c).take k) w,
        ∃ v, a = Fetched.vals v ∧ v.length ≤ c.Counters.length) →
      (dcgm.serve (dcgm.worldAfter ((entityRequests c).take k) w) r).1 = Fetched.err e →
      GetMetrics dcgm c w =
        (Outcome.error e,
          (dcgm.serve (dcgm.worldAfter ((entityRequests c).take k) w) r).2)) ∧
    (∀ (groups : List (List Metric)) (w1 : World),
      (∀ a ∈ dcgm.answers (entityRequests c) w, ∀ v, a = Fetched.vals v →
        v.length ≤ c.Counters.length) →
      GetMetrics dcgm c w = (Outcome.ok groups, w1) →
      ∀ a ∈ dcgm.answers (entityRequests c) w, ∃ v, a = Fetched.vals v) := by
  refine ⟨fun k r e => GetMetrics_fail dcgm c w hnon hmig k r e, ?_⟩
  intro groups w1 hshort hok
  by_contra hsome
  obtain ⟨k, r, e, hr, hbefore, hfail⟩ := first_failure dcgm (entityRequests c) w hsome
  have hrun := GetMetrics_fail dcgm c w hnon hmig k r e hr
    (by
      intro a ha
      obtain ⟨v, hv⟩ := hbefore a ha
      refine ⟨v, hv, hshort a ?_ v hv⟩
      rw [answers_take] at ha
      exact List.mem_of_mem_take ha)
    hfail
  rw [hrun] at hok
  cases hok

theorem GetMetrics_aborts_on_fetch_failure_witness :
    GetMetrics (sampleDaemon 12) sampleMigCollector 0 =
        (Outcome.error ⟨"entity is lost"⟩, 2) ∧
      GetMetrics (sampleDaemon 1) (sampleCollector false 2 [sampleGpu 0 [], sampleGpu 1 []]) 0 =
        (Outcome.error ⟨"GPU is lost"⟩, 2) :=
  ⟨(GetMetrics_aborts_on_fetch_failure (sampleDaemon 12) sampleMigCollector 0
      (fun h => absurd h (by decide))
      (fun _ => ⟨fun i hi => by
          match i, hi with
          | 0, _ => exact ⟨_, rfl, by decide⟩
          | 1, _ => exact ⟨_, rfl, by decide⟩,
        by decide,
        fun i gpu hi h => by
          match i, hi, h with
          | 2, _, h => cases h; rfl
          | k + 3, _, h => cases h⟩)).1 1
      (Request.entity Field_Entity_Group.FE_GPU_I 12 [150, 155, 203]) ⟨"entity is lost"⟩ rfl
      (fun a ha => by
        have hanswers : (sampleDaemon 12).answers ((entityRequests sampleMigCollector).take 1)
            0 = [Fetched.vals [⟨DCGM_FT_INT64, 11150, ""⟩, ⟨DCGM_FT_INT64, 11155, ""⟩,
              ⟨DCGM_FT_INT64, 11203, ""⟩]] := by decide
        rw [hanswers, List.mem_singleton] at ha
        exact ⟨_, ha, by decide⟩)
      (by decide),
    (GetMetrics_aborts_on_fetch_failure (sampleDaemon 1)
      (sampleCollector false 2 [sampleGpu 0 [], sampleGpu 1 []]) 0
      (fun _ => by decide) (fun h => absurd h (by decide))).1 1
      (Request.gpu 1 [150, 155, 203]) ⟨"GPU is lost"⟩ rfl
      (fun a ha => by
        have hanswers : (sampleDaemon 1).answers
            ((entityRequests (sampleCollector false 2 [sampleGpu 0 [], sampleGpu 1 []])).take 1)
            0 = [Fetched.vals [⟨DCGM_FT_INT64, 150, ""⟩, ⟨DCGM_FT_INT64, 155, ""⟩,
              ⟨DCGM_FT_INT64, 203, ""⟩]] := by decide
        rw [hanswers, List.mem_singleton] at ha
        exact ⟨_, ha, by decide⟩)
      (by decide)⟩

/-- C6 (as stated) fails. Without MIG, with two fields requested for a single counter, the
daemon refuses GPU 1, but the two values fetched for GPU 0 make `ToMetric` index the
counter list out of range: the pass panics after one fetch and returns neither groups nor
the error. With MIG, GPU 0 without instances and GPU 1 with the instance 21, the daemon
refuses entity 21, but the main loop stops after GPU 0: the pass returns one nil group and
no error. -/
theorem GetMetrics_fetch_failure_counterexample :
    ((sampleDaemon 1).GetLatestValuesForFields 1 1 [150, 155]).1 =
        Fetched.err ⟨"GPU is lost"⟩ ∧
      GetMetrics (sampleDaemon 1)
          (sampleShortCollector false 2 [sampleGpu 0 [], sampleGpu 1 []]) 0 =
        (Outcome.panic, 1) ∧
      ((sampleDaemon 21).EntityGetLatestValues 0 Field_Entity_Group.FE_GPU_I 21
          [150, 155, 203]).1 = Fetched.err ⟨"entity is lost"⟩ ∧
      entityRequests (sampleCollector true 2 [sampleGpu 0 [], sampleGpu 1 [21]]) =
        [Request.entity Field_Entity_Group.FE_GPU_I 21 [150, 155, 203]] ∧
      GetMetrics (sampleDaemon 21) (sampleCollector true 2 [sampleGpu 0 [], sampleGpu 1 [21]])
          0 = (Outcome.ok [[]], 0) := by
  decide

/-- C5 (as stated) fails: without MIG, one GPU, two fields requested for a single counter;
the fetch succeeds with two values, `ToMetric` indexes the counter list out of range for
the second one, and the pass panics instead of returning one group. -/
theorem GetMetrics_without_mig_counterexample :
    (sampleDaemon 99).answers [Request.gpu 0 [150, 155]] 0 =
        [Fetched.vals [⟨DCGM_FT_INT64, 150, ""⟩, ⟨DCGM_FT_INT64, 155, ""⟩]] ∧
      GetMetrics (sampleDaemon 99) (sampleShortCollector false 1 [sampleGpu 0 []]) 0 =
        (Outcome.panic, 1) := by
  decide

/-- C19 (as stated) fails: with MIG on the sample topology (two instances on GPU 0, one on
GPU 1, one unused entry), two fields requested for a single counter; every fetch succeeds
with two values, `ToMetric` indexes the counter list out of range on the first instance,
and the pass panics after one fetch instead of filling the three slots. -/
theorem GetMetrics_with_mig_counterexample :
    (sampleDaemon 99).answers
        [Request.entity Field_Entity_Group.FE_GPU_I 11 [150, 155],
          Request.entity Field_Entity_Group.FE_GPU_I 12 [150, 155],
          Request.entity Field_Entity_Group.FE_GPU_I 21 [150, 155]] 0 =
        [Fetched.vals [⟨DCGM_FT_INT64, 11150, ""⟩, ⟨DCGM_FT_INT64, 11155, ""⟩],
          Fetched.vals [⟨DCGM_FT_INT64, 12150, ""⟩, ⟨DCGM_FT_INT64, 12155, ""⟩],
          Fetched.vals [⟨DCGM_FT_INT64, 21150, ""⟩, ⟨DCGM_FT_INT64, 21155, ""⟩]] ∧
      GetMetrics (sampleDaemon 99)
          (sampleShortCollector true 2
            [sampleGpu 0 [11, 12], sampleGpu 1 [21], sampleGpu 2 []]) 0 =
        (Outcome.panic, 1) := by
  decide

/-- C11 (as stated) fails: a value with the binary tag matches no sentinel and is turned
into the conversion-failed marker, but placed before a second value in a list with a
single counter, `ToMetric` indexes the counter list out of range on the second value and
returns nothing, so the remaining value is not converted. -/
theorem ToString_unrecognized_type_counterexample :
    ¬ matchesSentinel ⟨DCGM_FT_BINARY, 7, ""⟩ ∧
      ToString ⟨DCGM_FT_BINARY, 7, ""⟩ = FailedToConvert ∧
      ToMetric [⟨DCGM_FT_BINARY, 7, ""⟩, ⟨DCGM_FT_INT64, 5, ""⟩] [⟨1, "blob"⟩]
        ⟨0, "GPU-0"⟩ none false = none := by
  decide

end DcgmExporter
